import Mathlib

/-!
# Fan condition demo: acquisition, overrun recovery and vote smoothing

A shallow embedding of the firmware's `main.c` (init routine, timer callback
and time base, interrupt handler, main loop, majority-vote post-processing
and LED indicator updates), of the sensor wrappers of `bmi160_sensor.c` and
of the constants of `app_config.h`.

C `int` values are modelled by `Int`; the only place where the 16-bit width of
the AVR `int` matters for them is the signed/unsigned comparison
`maxval >= MAJORITY_VOTES`, which is modelled with an explicit reduction
modulo `2 ^ 16`.  The unsigned counters of the time base and of the ticker are
`Nat` with an explicit reduction modulo their width.  Array accesses with a
computed index return `none` when the index is outside the array (undefined
behaviour in C).
-/

namespace FanDemo

/-! ## Constants of `app_config.h` and `main.c` -/

/-- Number of class ids known to the model: `#define NUM_CLASSES 7U`. -/
def NUM_CLASSES : Nat := 7

/-- Length of the vote window: `#define NUM_VOTES 3U`. -/
def NUM_VOTES : Nat := 3

/-- Threshold of the vote: `#define MAJORITY_VOTES ((NUM_VOTES + 1) / 2U)`. -/
def MAJORITY_VOTES : Nat := (NUM_VOTES + 1) / 2

/-- LED period in ms: `#define TICK_RATE_FAST 100`. -/
def TICK_RATE_FAST : Nat := 100

/-- LED period in ms: `#define TICK_RATE_SLOW 500`. -/
def TICK_RATE_SLOW : Nat := 500

/-- Size of the sensor buffer in samples: `#define SNSR_BUF_LEN 32`. -/
def SNSR_BUF_LEN : Nat := 32

/-- Axes per frame: `(3*SNSR_USE_ACCEL + 3*SNSR_USE_GYRO)` with both enabled. -/
def SNSR_NUM_AXES : Nat := 6

/-- Width in bits of `int` and `unsigned int` on the AVR target. -/
def INT_BITS : Nat := 16

/-- Modelled from the spec: the success code `BMI160_OK` of the sensor driver,
whose header is not part of the sources.  The spec (section 6) only tells
success from transport errors; zero is the value of the vendor driver. -/
def BMI160_OK : Int := 0

/-- Modelled from the spec: the status `SNSR_STATUS_OK` of a healthy sensor, from
the header `sensor.h` that is not part of the sources.  `main` compares it
with the result of `sensor_init`, which is `BMI160_OK` on success. -/
def SNSR_STATUS_OK : Int := BMI160_OK

/-- Conversion of an `int` to `unsigned int` (usual arithmetic conversions). -/
def to_unsigned (x : Int) : Nat := (x % (2 ^ INT_BITS : Int)).toNat

/-! ## The sample ring buffer -/

/-- Modelled from the spec: the ring buffer type of `ringbuffer.h`/`ringbuffer.c`,
which are not part of the sources.  Section 3 of the spec describes it as an
array of `capacity` frame slots plus a write index and a read index; the write
index never runs ahead of the read index by more than `capacity` slots.  The
indices count committed and consumed frames, a frame with index `i` lives in
slot `i % capacity`. -/
structure ringbuffer_t where
  capacity : Nat
  widx : Nat
  ridx : Nat
  slots : List (List Int)
  deriving DecidableEq

/-- Modelled from the spec: `ringbuffer_get_write_buffer` of the absent
`ringbuffer.c` (`try_get_write_slot`, section 4.2): the slot that the next
write goes to and the count of writable slots, zero when the buffer is full. -/
def ringbuffer_get_write_buffer (rb : ringbuffer_t) : Nat × Nat :=
  (rb.widx % rb.capacity, rb.capacity - (rb.widx - rb.ridx))

/-- Modelled from the spec: `ringbuffer_advance_write_index` of the absent
`ringbuffer.c` (`commit_write`, section 4.2): advances the write index by `n`
slots. -/
def ringbuffer_advance_write_index (rb : ringbuffer_t) (n : Nat) : ringbuffer_t :=
  { rb with widx := rb.widx + n }

/-- Modelled from the spec: `ringbuffer_get_read_buffer` of the absent
`ringbuffer.c` (`get_read_batch`, section 4.2): the slot of the oldest unread
frame and the count of contiguous unread frames; a batch never crosses the
physical wrap point of the buffer. -/
def ringbuffer_get_read_buffer (rb : ringbuffer_t) : Nat × Nat :=
  (rb.ridx % rb.capacity, min (rb.widx - rb.ridx) (rb.capacity - rb.ridx % rb.capacity))

/-- Modelled from the spec: `ringbuffer_advance_read_index` of the absent
`ringbuffer.c` (`advance_read`, section 4.2): marks `n` frames as consumed. -/
def ringbuffer_advance_read_index (rb : ringbuffer_t) (n : Nat) : ringbuffer_t :=
  { rb with ridx := rb.ridx + n }

/-- Modelled from the spec: `ringbuffer_reset` of the absent `ringbuffer.c`
(`reset`, section 4.2): zeroes both indices. -/
def ringbuffer_reset (rb : ringbuffer_t) : ringbuffer_t :=
  { rb with widx := 0, ridx := 0 }

/-! ## Program state -/

/-- The functions that `main.c` registers as the sensor interrupt handler. -/
inductive Handler where
  | Null_Handler
  | SNSR_ISR_HANDLER
  deriving DecidableEq

/-- The variables of `main.c` that the pipeline reads and writes: the globals
`tickrate`, `sensor.status`, `snsr_buffer`, `snsr_buffer_overrun`, the locals
`clsid`, `votehist`, `votecounts` of `main`, the output pin of the one LED that
the board configuration wires (`LED_YELLOW`, which is also `LED_STATUS`; the
red, green and blue LED operations are null operations in `app_config.h`), the
handler registered with `MIKRO_INT_CallbackRegister`, and a ghost counter of
the calls of `sensor_read`. -/
structure App where
  tickrate : Nat
  led_status : Bool
  sensor_status : Int
  snsr_buffer : ringbuffer_t
  snsr_buffer_overrun : Bool
  int_handler : Handler
  clsid : Int
  votehist : List Int
  votecounts : List Int
  sensor_reads : Nat
  deriving DecidableEq

/-! ## LED operations (`app_config.h`) -/

/-- `LED_STATUS_On` is `LED_YELLOW_On`. -/
def LED_STATUS_On (s : App) : App := { s with led_status := true }

/-- `LED_RED_On` is `__nullop__`. -/
def LED_RED_On (s : App) : App := s

/-- `LED_ALL_Off()` switches the yellow LED off; the other three are null operations. -/
def LED_ALL_Off (s : App) : App := { s with led_status := false }

/-! ## Majority vote post-processing (`main`, lines 275-326) -/

/-- Read of `a[i]` for an `int` index. -/
def arr_get (a : List Int) (i : Int) : Option Int :=
  if 0 ≤ i then a.get? i.toNat else none

/-- Write `a[i] = v` for an `int` index. -/
def arr_set (a : List Int) (i : Int) (v : Int) : Option (List Int) :=
  if 0 ≤ i ∧ i.toNat < a.length then some (a.set i.toNat v) else none

/-- The loop `for (int i=1; i < NUM_VOTES; i++) votehist[i-1] = votehist[i];`:
the first argument counts the iterations that remain, the second is `i`. -/
def shift_loop : Nat → Int → List Int → Option (List Int)
  | 0, _, vh => some vh
  | n + 1, i, vh => do
    let v ← arr_get vh i
    let vh1 ← arr_set vh (i - 1) v
    shift_loop n (i + 1) vh1

/-- The statements under the comment "Update the voting counts":
`votecounts[votehist[0]]--;` the shift loop, `votehist[NUM_VOTES-1] = ret;`
and `votecounts[ret]++;`. -/
def vote_update (s : App) (ret : Int) : Option App := do
  let h0 ← arr_get s.votehist 0
  let c0 ← arr_get s.votecounts h0
  let vc1 ← arr_set s.votecounts h0 (c0 - 1)
  let vh1 ← shift_loop (NUM_VOTES - 1) 1 s.votehist
  let vh2 ← arr_set vh1 ((NUM_VOTES : Int) - 1) ret
  let c1 ← arr_get vc1 ret
  let vc2 ← arr_set vc1 ret (c1 + 1)
  pure { s with votehist := vh2, votecounts := vc2 }

/-- The loop `for (int i=0; i < NUM_CLASSES; i++) if (votecounts[i] > maxval) ...`:
the first argument counts the iterations that remain, the second is `i`, the
pair is `(maxval, maxcls)`. -/
def scan_loop (vc : List Int) : Nat → Nat → Int × Int → Option (Int × Int)
  | 0, _, acc => some acc
  | n + 1, i, acc => do
    let v ← vc.get? i
    if v > acc.1 then scan_loop vc n (i + 1) (v, (i : Int))
    else scan_loop vc n (i + 1) acc

/-- The scan under "Get the class with the most votes", started with
`maxval = -1, maxcls = -1`. -/
def scan_votes (vc : List Int) : Option (Int × Int) :=
  scan_loop vc NUM_CLASSES 0 (-1, -1)

/-- The body of `if (maxval >= MAJORITY_VOTES && maxcls != clsid)` after the
assignment of `clsid`: `tickrate = 0; LED_ALL_Off();` and the chain of
comparisons that selects the rate of the class (lines 298-323). -/
def indicator_update (s0 : App) : App :=
  let s := LED_ALL_Off { s0 with tickrate := 0 }
  if s.clsid = 2 then { s with tickrate := 100 }
  else if s.clsid = 6 then { s with tickrate := 50 }
  else if s.clsid = 0 then { s with tickrate := 50 }
  else if s.clsid = 3 then { s with tickrate := 1000 }
  else if s.clsid = 4 then { s with tickrate := 600 }
  else if s.clsid = 5 then { s with tickrate := 300 }
  else if s.clsid = 1 then LED_STATUS_On s
  else { s with tickrate := TICK_RATE_SLOW }

/-- The decision of lines 284-325: when the verdict differs from `clsid`, scan
the histogram and switch class when the maximum reaches `MAJORITY_VOTES`
(compared as `unsigned int`) and its class differs from `clsid`. -/
def vote_decide (s : App) (ret : Int) : Option App :=
  if ret ≠ s.clsid then do
    let (maxval, maxcls) ← scan_votes s.votecounts
    if to_unsigned maxval ≥ MAJORITY_VOTES ∧ maxcls ≠ s.clsid then
      pure (indicator_update { s with clsid := maxcls })
    else pure s
  else pure s

/-- The block `if (ret >= 0) { ... }` of the drain loop (lines 275-326). -/
def vote_block (s : App) (ret : Int) : Option App :=
  if 0 ≤ ret then do
    let s1 ← vote_update s ret
    vote_decide s1 ret
  else pure s

/-- The vote block applied to a stream of classifier results, oldest first. -/
def feed (s : App) : List Int → Option App
  | [] => some s
  | r :: rs => do
    let s1 ← vote_block s r
    feed s1 rs

/-- One pass of the body of `while (rdcnt--)` (lines 272-326) for a frame that
the classifier maps to `ret`: the read index advances by one, then the vote
block runs. -/
def process_frame (s : App) (ret : Int) : Option App :=
  vote_block { s with snsr_buffer := ringbuffer_advance_read_index s.snsr_buffer 1 } ret

/-- The loop `while (rdcnt--) { ... }` (lines 271-327): `rdcnt` frames are
processed; `rets` lists the results of the successive calls of
`sml_recognition_run` (the classifier is external), a missing result stops
the model. -/
def drain_loop : Nat → List Int → App → Option App
  | 0, _, s => some s
  | _ + 1, [], _ => none
  | n + 1, r :: rs, s => do
    let s1 ← process_frame s r
    drain_loop n rs s1

/-- The state of the program when the main loop is entered after a successful
initialisation: `tickrate = TICK_RATE_SLOW` with the status LED on, the sensor
healthy, the buffer initialised and empty, `SNSR_ISR_HANDLER` registered, and
the vote variables as declared: `clsid = 1`, `votehist = {1}`,
`votecounts = {0}`. -/
def init_state : App :=
  { tickrate := TICK_RATE_SLOW
    led_status := true
    sensor_status := SNSR_STATUS_OK
    snsr_buffer :=
      { capacity := SNSR_BUF_LEN, widx := 0, ridx := 0,
        slots := List.replicate SNSR_BUF_LEN (List.replicate SNSR_NUM_AXES 0) }
    snsr_buffer_overrun := false
    int_handler := Handler.SNSR_ISR_HANDLER
    clsid := 1
    votehist := [1, 0, 0]
    votecounts := [0, 0, 0, 0, 0, 0, 0]
    sensor_reads := 0 }

/-- The else-branch of the main loop (lines 269-327): the count of the batch
comes from `ringbuffer_get_read_buffer`, then the drain loop runs. -/
def drain_batch (s : App) (rets : List Int) : Option App :=
  drain_loop (ringbuffer_get_read_buffer s.snsr_buffer).2 rets s

/-- The class id after a stream of classifier results. -/
def clsid_after (s : App) (rs : List Int) : Option Int :=
  (feed s rs).map (fun t => t.clsid)

/-- The pair `(clsid, tickrate)` after each of the `1, 2, ..., n` first frames
of a drain with classifier results `rets`. -/
def drain_trace (s : App) (rets : List Int) (n : Nat) : List (Option (Int × Nat)) :=
  (List.range n).map (fun k => (drain_loop (k + 1) rets s).map (fun t => (t.clsid, t.tickrate)))

/-! ## Sensor read and interrupt handler -/

/-- What the vendor routine `bmi160_get_sensor_data` yields at one call: its
status and the accelerometer and gyroscope samples. -/
structure SensorData where
  status : Int
  accel_x : Int
  accel_y : Int
  accel_z : Int
  gyro_x : Int
  gyro_y : Int
  gyro_z : Int
  deriving DecidableEq

/-- The wrapper `bmi160_sensor_read` of `bmi160_sensor.c`: on a failed transfer
the frame behind `ptr` is left as it is, otherwise the six axes are stored;
the status is returned. -/
def bmi160_sensor_read (d : SensorData) (frame : List Int) : Int × List Int :=
  if d.status ≠ BMI160_OK then (d.status, frame)
  else (d.status, [d.accel_x, d.accel_y, d.accel_z, d.gyro_x, d.gyro_y, d.gyro_z])

/-- Modelled from the spec: `sensor_read` of the header `sensor.h`, which is not
part of the sources: the `read_frame` operation of section 6, bound to the
wrapper of the BMI160 driver. -/
def sensor_read (d : SensorData) (frame : List Int) : Int × List Int :=
  bmi160_sensor_read d frame

/-- The interrupt handler `SNSR_ISR_HANDLER` of `main.c` (lines 129-141); `d` is
what the sensor delivers if it is read during this interrupt. -/
def SNSR_ISR_HANDLER (s : App) (d : SensorData) : App :=
  if s.sensor_status ≠ SNSR_STATUS_OK ∨ s.snsr_buffer_overrun = true then s
  else
    let (ptr, wrcnt) := ringbuffer_get_write_buffer s.snsr_buffer
    if wrcnt = 0 then { s with snsr_buffer_overrun := true }
    else
      let (st, frame) := sensor_read d (s.snsr_buffer.slots.getD ptr [])
      let s1 : App :=
        { s with
          sensor_status := st
          snsr_buffer := { s.snsr_buffer with slots := s.snsr_buffer.slots.set ptr frame }
          sensor_reads := s.sensor_reads + 1 }
      if st = SNSR_STATUS_OK then
        { s1 with snsr_buffer := ringbuffer_advance_write_index s1.snsr_buffer 1 }
      else s1

/-- One sensor interrupt: the registered handler runs (`Null_Handler` does nothing). -/
def sensor_interrupt (s : App) (d : SensorData) : App :=
  match s.int_handler with
  | Handler.Null_Handler => s
  | Handler.SNSR_ISR_HANDLER => SNSR_ISR_HANDLER s d

/-! ## Main loop (`main`, lines 239-329) -/

/-- The statements of the main context outside the classification branch. -/
inductive Stmt where
  | printf
  | tickrate_assign (v : Nat)
  | LED_ALL_Off
  | LED_STATUS_On
  | LED_RED_On
  | sleep_ms (ms : Nat)
  | MIKRO_INT_CallbackRegister (h : Handler)
  | ringbuffer_reset
  | overrun_clear
  deriving DecidableEq

/-- Effect of one statement on the program state; `printf` and the busy wait
`sleep_ms` change none of the variables of the state. -/
def exec_stmt (st : Stmt) (s : App) : App :=
  match st with
  | Stmt.printf => s
  | Stmt.tickrate_assign v => { s with tickrate := v }
  | Stmt.LED_ALL_Off => LED_ALL_Off s
  | Stmt.LED_STATUS_On => LED_STATUS_On s
  | Stmt.LED_RED_On => LED_RED_On s
  | Stmt.sleep_ms _ => s
  | Stmt.MIKRO_INT_CallbackRegister h => { s with int_handler := h }
  | Stmt.ringbuffer_reset => { s with snsr_buffer := ringbuffer_reset s.snsr_buffer }
  | Stmt.overrun_clear => { s with snsr_buffer_overrun := false }

/-- The branch `else if (snsr_buffer_overrun == true) { ... }` (lines 248-267),
statement by statement in source order. -/
def overrun_recovery : List Stmt :=
  [ Stmt.printf,
    Stmt.tickrate_assign 0,
    Stmt.LED_ALL_Off,
    Stmt.LED_STATUS_On,
    Stmt.LED_RED_On,
    Stmt.sleep_ms 5000,
    Stmt.LED_ALL_Off,
    Stmt.MIKRO_INT_CallbackRegister Handler.Null_Handler,
    Stmt.ringbuffer_reset,
    Stmt.overrun_clear,
    Stmt.MIKRO_INT_CallbackRegister Handler.SNSR_ISR_HANDLER,
    Stmt.tickrate_assign TICK_RATE_SLOW ]

/-- Sequential execution of a list of statements. -/
def exec_stmts : List Stmt → App → App
  | [], s => s
  | st :: rest, s => exec_stmts rest (exec_stmt st s)

/-- Execution of a list of statements with sensor interrupts in between: before
statement number `i` the interrupts `irq i` fire, one per element, each
running the handler registered at that moment. -/
def exec_interleaved (irq : Nat → List SensorData) : Nat → List Stmt → App → App
  | _, [], s => s
  | i, st :: rest, s =>
    exec_interleaved irq (i + 1) rest (exec_stmt st ((irq i).foldl sensor_interrupt s))

/-- One iteration of `while (!app_failed)`: the flag of the result tells that
the loop was left by `break`; `rets` lists the classifier results for the
frames of the batch. -/
def main_loop_iteration (s : App) (rets : List Int) : Option (Bool × App) :=
  if s.sensor_status ≠ SNSR_STATUS_OK then some (true, s)
  else if s.snsr_buffer_overrun = true then some (false, exec_stmts overrun_recovery s)
  else (drain_batch s rets).map (fun t => (false, t))

/-- The rate that the class-transition code leaves in `tickrate` for class `c`. -/
def class_tickrate (s : App) (c : Int) : Nat :=
  (indicator_update { s with clsid := c }).tickrate

/-- A healthy sensor sample. -/
def sample_ok : SensorData :=
  { status := BMI160_OK, accel_x := 1, accel_y := 2, accel_z := 3,
    gyro_x := 4, gyro_y := 5, gyro_z := 6 }

/-! ## The histogram against the window -/

/-- Contribution of a window entry `x` to the count of class `k`. -/
def cnt (k x : Int) : Int := if x = k then 1 else 0

/-- Entries of the seed window `{1, 0, 0}` that the histogram `{0}` never counted. -/
def seed_count (k : Int) : Int := if k = 0 then 2 else if k = 1 then 1 else 0

/-- The histogram that the code holds for the window `[a, b, c]`. -/
def hist_of (a b c : Int) : List Int :=
  [cnt 0 a + cnt 0 b + cnt 0 c - 2, cnt 1 a + cnt 1 b + cnt 1 c - 1,
   cnt 2 a + cnt 2 b + cnt 2 c, cnt 3 a + cnt 3 b + cnt 3 c,
   cnt 4 a + cnt 4 b + cnt 4 c, cnt 5 a + cnt 5 b + cnt 5 c,
   cnt 6 a + cnt 6 b + cnt 6 c]

/-- Class `m` is the lowest class id in `0..NUM_CLASSES-1` whose count is maximal. -/
def IsLowestArgmax (vc : List Int) (m : Nat) : Prop :=
  m < NUM_CLASSES ∧ (∀ j, j < NUM_CLASSES → vc.getD j 0 ≤ vc.getD m 0) ∧
    (∀ j, j < m → vc.getD j 0 < vc.getD m 0)

/-- The invariant of the vote variables: the window holds three class ids, the
histogram is the count of the window less the uncounted seed entries, and a
window whose two newest entries are the same class `≥ 2` has that class current. -/
def VoteInv (s : App) : Prop :=
  ∃ a b c : Int, (0 ≤ a ∧ a < 7) ∧ (0 ≤ b ∧ b < 7) ∧ (0 ≤ c ∧ c < 7) ∧
    s.votehist = [a, b, c] ∧ s.votecounts = hist_of a b c ∧ (b = c → 2 ≤ b → s.clsid = b)

/-- The state after the verdicts `[2, 2]` from the initial state. -/
def state_2_2 : App :=
  { init_state with clsid := 2, votehist := [0, 2, 2], votecounts := [-1, -1, 2, 0, 0, 0, 0],
                    tickrate := 100, led_status := false }

/-- The initial state with a batch of ten unread frames in the buffer. -/
def state_batch10 : App :=
  { init_state with snsr_buffer := { init_state.snsr_buffer with widx := 10 } }

/-- The values of the vote variables at the declaration in `main`. -/
def VoteInit (s : App) : Prop :=
  s.clsid = 1 ∧ s.votehist = [1, 0, 0] ∧ s.votecounts = [0, 0, 0, 0, 0, 0, 0]

/-- A state in which a sensor interrupt changes nothing whatever the sensor
delivers: the overrun flag is set or `Null_Handler` is registered. -/
def quiet (s : App) : Prop :=
  s.snsr_buffer_overrun = true ∨ s.int_handler = Handler.Null_Handler

/-- Every statement of the list starts in a quiet state. -/
def all_quiet : List Stmt → App → Prop
  | [], _ => True
  | st :: rest, s => quiet s ∧ all_quiet rest (exec_stmt st s)

/-- The state of the program after two sensor interrupts and one iteration of
the main loop that drains the two frames with the verdicts `[2, 2]`: class 2
is current and `tickrate` is 100. -/
def state_class2 : App :=
  ((main_loop_iteration ((List.replicate 2 sample_ok).foldl sensor_interrupt init_state)
    [2, 2]).map (fun p => p.2)).getD init_state

/-- The state `state_class2` after 33 further sensor interrupts without a drain:
32 frames fill the buffer, the 33rd interrupt raises the overrun flag. -/
def state_overrun_2 : App :=
  (List.replicate 33 sample_ok).foldl sensor_interrupt state_class2

/-- The state `state_overrun_2` after the overrun recovery of the main loop:
class 2 is still current and `tickrate` is `TICK_RATE_SLOW`. -/
def state_recovered : App :=
  exec_stmts overrun_recovery state_overrun_2

/-- The initial state after 32 sensor interrupts without a drain: the buffer is full. -/
def state_full : App :=
  (List.replicate 32 sample_ok).foldl sensor_interrupt init_state

/-! ## Indicator patterns, time base and ticker (`main.c`, lines 97-116) -/

/-- The indicator pattern that the class-transition code leaves for class `c`:
the value of `tickrate` and whether the status LED is left switched on. -/
def class_pattern (s : App) (c : Int) : Nat × Bool :=
  ((indicator_update { s with clsid := c }).tickrate,
   (indicator_update { s with clsid := c }).led_status)

/-- Modulus of `uint16_t`. -/
def UINT16_MOD : Nat := 2 ^ 16

/-- Modulus of `uint32_t`. -/
def UINT32_MOD : Nat := 2 ^ 32

/-- Modulus of `uint64_t`. -/
def UINT64_MOD : Nat := 2 ^ 64

/-- The function `read_timer_ms`: the `uint32_t` counter `tickcounter`, returned
as `uint64_t`. -/
def read_timer_ms (tickcounter : Nat) : Nat :=
  (tickcounter % UINT32_MOD) % UINT64_MOD

/-- The function `read_timer_us`: `tickcounter * 1000U + (uint32_t) TC_TimerGet_us()`.
The operands are `uint32_t` and `unsigned int`, so the product and the sum are
computed in `uint32_t`; the result is then converted to the return type
`uint64_t`.  The second argument is the reading of the timer register. -/
def read_timer_us (tickcounter : Nat) (timer : Nat) : Nat :=
  (((tickcounter % UINT32_MOD) * 1000 % UINT32_MOD + timer % UINT32_MOD) % UINT32_MOD)
    % UINT64_MOD

/-- The variables of the ticker: the globals `tickcounter` and `tickrate`, the
static `mstick` of `Ticker_Callback`, the pin of the status LED, and a ghost
count of the calls of `LED_STATUS_Toggle`. -/
structure Ticker where
  tickcounter : Nat
  tickrate : Nat
  mstick : Nat
  led_status : Bool
  toggles : Nat
  deriving DecidableEq

/-- The timer callback `Ticker_Callback` (lines 97-108). -/
def Ticker_Callback (s : Ticker) : Ticker :=
  let s1 := { s with tickcounter := (s.tickcounter + 1) % UINT32_MOD }
  if s1.tickrate = 0 ∨ s1.mstick > s1.tickrate then { s1 with mstick := 0 }
  else if (s1.mstick + 1) % UINT32_MOD = s1.tickrate then
    { s1 with led_status := !s1.led_status, toggles := s1.toggles + 1, mstick := 0 }
  else { s1 with mstick := (s1.mstick + 1) % UINT32_MOD }

/-- A number of consecutive invocations of `Ticker_Callback`. -/
def ticks : Nat → Ticker → Ticker
  | 0, s => s
  | n + 1, s => ticks n (Ticker_Callback s)

/-- The writes of the class-transition code as the ticker sees them (lines
298-323 for a class with a blink rate): `tickrate = 0;` `LED_ALL_Off();`
`tickrate = rate;`, with `b1` timer callbacks between the first two statements
and `b2` between the last two. -/
def rate_change (rate b1 b2 : Nat) (s : Ticker) : Ticker :=
  let s1 := ticks b1 { s with tickrate := 0 }
  let s2 := ticks b2 { s1 with led_status := false }
  { s2 with tickrate := rate % UINT16_MOD }

/-- A ticker that has blinked at `TICK_RATE_SLOW` for 40 callbacks of a cycle. -/
def ticker_mid_cycle : Ticker :=
  ticks 40 { tickcounter := 0, tickrate := TICK_RATE_SLOW, mstick := 0, led_status := true,
             toggles := 0 }

/-! ## Initialisation and program run (`main`, lines 149-339) -/

/-- The results of the calls that the initialisation makes into code outside
the sources: the return values of the two calls of `ringbuffer_init` and the
results of the vendor routines `bmi160_init`, `bmi160_set_sens_conf` and
`bmi160_set_int_config`. -/
structure InitOutcome where
  rb_snsr : Int
  rb_uart : Int
  bmi160_init : Int
  set_sens_conf : Int
  set_int_config : Int
  deriving DecidableEq

/-- Modelled from the spec: `ringbuffer_init` of the absent `ringbuffer.c`.  The
return value `ret` is an input of the model; zero accepts the sizing
(section 4.2: a capacity that is not a power of two is rejected at
initialisation), and an accepted buffer has the capacity `len` and both
indices zero with every slot cleared. -/
def ringbuffer_init (ret : Int) (len : Nat) (rb : ringbuffer_t) : Int × ringbuffer_t :=
  if ret = 0 then
    (ret, { capacity := len, widx := 0, ridx := 0,
            slots := List.replicate len (List.replicate SNSR_NUM_AXES 0) })
  else (ret, rb)

/-- The wrapper `bmi160_sensor_init` of `bmi160_sensor.c`: the status becomes the
result of `bmi160_init` and is returned. -/
def bmi160_sensor_init (o : InitOutcome) (s : App) : Int × App :=
  (o.bmi160_init, { s with sensor_status := o.bmi160_init })

/-- The wrapper `bmi160_sensor_set_config` of `bmi160_sensor.c`: it returns the
status at once when that is not OK, else the status becomes the result of
`bmi160_set_sens_conf` and, when that is OK, of `bmi160_set_int_config`. -/
def bmi160_sensor_set_config (o : InitOutcome) (s : App) : Int × App :=
  if s.sensor_status ≠ BMI160_OK then (s.sensor_status, s)
  else if o.set_sens_conf ≠ BMI160_OK then
    (o.set_sens_conf, { s with sensor_status := o.set_sens_conf })
  else (o.set_int_config, { s with sensor_status := o.set_int_config })

/-- What the initialisation leaves: the flag `app_failed`, the program state,
and the handlers that it passed to `MIKRO_INT_CallbackRegister`, in order. -/
structure InitResult where
  app_failed : Int
  state : App
  registered : List Handler
  deriving DecidableEq

/-- The application init routine of `main` (lines 162-230): `app_failed = 1;`
then the block that is left by `break` at the first failing step and that
ends with the registration of `SNSR_ISR_HANDLER`, the indicator of the running
state and `app_failed = 0;`.  The names `sensor_init` and `sensor_set_config`
of the absent `sensor.h` stand for the wrappers of the BMI160 driver.  The
calls `UART_RXC_Enable`, `kb_model_init`, `sml_output_init` and `printf`
change none of the variables of the state; the UART buffer is represented by
the return value of its `ringbuffer_init` alone. -/
def app_init (o : InitOutcome) (s : App) : InitResult :=
  let r1 := ringbuffer_init o.rb_snsr SNSR_BUF_LEN s.snsr_buffer
  let s1 : App := { s with snsr_buffer := r1.2 }
  if r1.1 ≠ 0 then { app_failed := 1, state := s1, registered := [] }
  else if o.rb_uart ≠ 0 then { app_failed := 1, state := s1, registered := [] }
  else
    let r3 := bmi160_sensor_init o s1
    if r3.1 ≠ SNSR_STATUS_OK then { app_failed := 1, state := r3.2, registered := [] }
    else
      let r4 := bmi160_sensor_set_config o r3.2
      if r4.1 ≠ SNSR_STATUS_OK then { app_failed := 1, state := r4.2, registered := [] }
      else
        { app_failed := 0
          state := exec_stmts
            [ Stmt.printf,
              Stmt.MIKRO_INT_CallbackRegister Handler.SNSR_ISR_HANDLER,
              Stmt.tickrate_assign 0,
              Stmt.LED_ALL_Off,
              Stmt.LED_STATUS_On,
              Stmt.tickrate_assign TICK_RATE_SLOW ] r4.2
          registered := [Handler.SNSR_ISR_HANDLER] }

/-- All steps of the initialisation succeed. -/
def init_ok (o : InitOutcome) : Prop :=
  o.rb_snsr = 0 ∧ o.rb_uart = 0 ∧ o.bmi160_init = BMI160_OK ∧
    o.set_sens_conf = BMI160_OK ∧ o.set_int_config = BMI160_OK

/-- The statements after the main loop (lines 331-333): `tickrate = 0;`
`LED_ALL_Off();` `LED_RED_On();`, before the program loops for ever. -/
def fatal_halt (s : App) : App :=
  exec_stmts [Stmt.tickrate_assign 0, Stmt.LED_ALL_Off, Stmt.LED_RED_On] s

/-- How a run of the program stands when its inputs are used up: halted in the
final endless loop, or still in the main loop; with the count of the
iterations of the main loop that were started. -/
inductive RunResult where
  | halted (s : App) (iterations : Nat)
  | running (s : App) (iterations : Nat)
  deriving DecidableEq

/-- The loop `while (!app_failed)` entered with `app_failed = 0`: each element
of the input gives the sensor interrupts that fire before one iteration and
the classifier results for its batch. -/
def main_loop : List (List SensorData × List Int) → Nat → App → Option RunResult
  | [], n, s => some (RunResult.running s n)
  | (ds, rets) :: rest, n, s => do
    let r ← main_loop_iteration (ds.foldl sensor_interrupt s) rets
    if r.1 = true then some (RunResult.halted (fatal_halt r.2) (n + 1))
    else main_loop rest (n + 1) r.2

/-- The function `main` from the init routine on: the initialisation, the
declaration of the vote variables, the main loop when `app_failed` is zero,
and the statements of the terminal halt. -/
def main (o : InitOutcome) (inputs : List (List SensorData × List Int)) (s : App) :
    Option RunResult :=
  let r := app_init o s
  let s1 : App :=
    { r.state with clsid := 1, votehist := [1, 0, 0], votecounts := [0, 0, 0, 0, 0, 0, 0] }
  if r.app_failed ≠ 0 then some (RunResult.halted (fatal_halt s1) 0)
  else main_loop inputs 0 s1

/-- The state of the variables at program start: statics are zero and the
sensor interrupt still has the default handler of the generated pin manager,
which does nothing and is represented by `Null_Handler`. -/
def boot_state : App :=
  { tickrate := 0
    led_status := false
    sensor_status := 0
    snsr_buffer := { capacity := 0, widx := 0, ridx := 0, slots := [] }
    snsr_buffer_overrun := false
    int_handler := Handler.Null_Handler
    clsid := 0
    votehist := []
    votecounts := []
    sensor_reads := 0 }

/-- An initialisation in which every step succeeds. -/
def outcome_ok : InitOutcome :=
  { rb_snsr := 0, rb_uart := 0, bmi160_init := BMI160_OK, set_sens_conf := BMI160_OK,
    set_int_config := BMI160_OK }

/-- An initialisation in which the configuration of the sensor fails. -/
def outcome_bad_config : InitOutcome :=
  { rb_snsr := 0, rb_uart := 0, bmi160_init := BMI160_OK, set_sens_conf := -2,
    set_int_config := BMI160_OK }

/-! ## Lemmas on the vote variables -/

theorem class_cases (a : Int) (h0 : 0 ≤ a) (h1 : a < 7) :
    a = 0 ∨ a = 1 ∨ a = 2 ∨ a = 3 ∨ a = 4 ∨ a = 5 ∨ a = 6 := by omega

theorem hist_evict (n0 n1 n2 n3 n4 n5 n6 a : Int) (ha0 : 0 ≤ a) (ha1 : a < 7) :
    ∃ x, arr_get [n0, n1, n2, n3, n4, n5, n6] a = some x ∧
      arr_set [n0, n1, n2, n3, n4, n5, n6] a (x - 1) =
        some [n0 - cnt 0 a, n1 - cnt 1 a, n2 - cnt 2 a, n3 - cnt 3 a, n4 - cnt 4 a,
          n5 - cnt 5 a, n6 - cnt 6 a] := by
  rcases class_cases a ha0 ha1 with h | h | h | h | h | h | h <;> subst h <;>
  exact ⟨_, rfl, by simp [arr_set, cnt]⟩

theorem hist_insert (n0 n1 n2 n3 n4 n5 n6 r : Int) (hr0 : 0 ≤ r) (hr1 : r < 7) :
    ∃ x, arr_get [n0, n1, n2, n3, n4, n5, n6] r = some x ∧
      arr_set [n0, n1, n2, n3, n4, n5, n6] r (x + 1) =
        some [n0 + cnt 0 r, n1 + cnt 1 r, n2 + cnt 2 r, n3 + cnt 3 r, n4 + cnt 4 r,
          n5 + cnt 5 r, n6 + cnt 6 r] := by
  rcases class_cases r hr0 hr1 with h | h | h | h | h | h | h <;> subst h <;>
  exact ⟨_, rfl, by simp [arr_set, cnt]⟩

theorem vote_update_eq (s : App) (a b c r : Int) (ha0 : 0 ≤ a) (ha1 : a < 7)
    (hr0 : 0 ≤ r) (hr1 : r < 7)
    (hvh : s.votehist = [a, b, c]) (hvc : s.votecounts = hist_of a b c) :
    vote_update s r = some { s with votehist := [b, c, r], votecounts := hist_of b c r } := by
  obtain ⟨x, hx1, hx2⟩ := hist_evict (cnt 0 a + cnt 0 b + cnt 0 c - 2)
    (cnt 1 a + cnt 1 b + cnt 1 c - 1) (cnt 2 a + cnt 2 b + cnt 2 c)
    (cnt 3 a + cnt 3 b + cnt 3 c) (cnt 4 a + cnt 4 b + cnt 4 c)
    (cnt 5 a + cnt 5 b + cnt 5 c) (cnt 6 a + cnt 6 b + cnt 6 c) a ha0 ha1
  obtain ⟨y, hy1, hy2⟩ := hist_insert (cnt 0 a + cnt 0 b + cnt 0 c - 2 - cnt 0 a)
    (cnt 1 a + cnt 1 b + cnt 1 c - 1 - cnt 1 a) (cnt 2 a + cnt 2 b + cnt 2 c - cnt 2 a)
    (cnt 3 a + cnt 3 b + cnt 3 c - cnt 3 a) (cnt 4 a + cnt 4 b + cnt 4 c - cnt 4 a)
    (cnt 5 a + cnt 5 b + cnt 5 c - cnt 5 a) (cnt 6 a + cnt 6 b + cnt 6 c - cnt 6 a) r hr0 hr1
  have hw : shift_loop (NUM_VOTES - 1) 1 [a, b, c] = some [b, c, c] := rfl
  have hw2 : arr_set [b, c, c] ((NUM_VOTES : Int) - 1) r = some [b, c, r] := rfl
  have hg : arr_get [a, b, c] 0 = some a := rfl
  simp only [vote_update, hvh, hvc, hist_of, hg, hx1, hx2, hw, hw2, hy1, hy2,
    Option.bind_eq_bind, Option.some_bind, Option.pure_def, Option.some.injEq]
  congr 1
  simp only [List.cons.injEq, and_true]
  refine ⟨?_, ?_, ?_, ?_, ?_, ?_, ?_⟩ <;> ring

/-! ## The histogram scan -/

theorem IsLowestArgmax.unique {vc : List Int} {m k : Nat}
    (hm : IsLowestArgmax vc m) (hk : IsLowestArgmax vc k) : m = k := by
  rcases Nat.lt_trichotomy m k with h | h | h
  · have h1 := hk.2.2 m h
    have h2 := hm.2.1 k hk.1
    omega
  · exact h
  · have h1 := hm.2.2 k h
    have h2 := hk.2.1 m hm.1
    omega

theorem scan_loop_spec (vc : List Int) :
    ∀ (n i : Nat) (acc : Int × Int), i + n ≤ vc.length →
      ∃ mv mc, scan_loop vc n i acc = some (mv, mc) ∧ acc.1 ≤ mv ∧
        (∀ j, i ≤ j → j < i + n → vc.getD j 0 ≤ mv) ∧
        ((mv = acc.1 ∧ mc = acc.2) ∨
          ∃ j : Nat, i ≤ j ∧ j < i + n ∧ mc = (j : Int) ∧ vc.getD j 0 = mv ∧ acc.1 < mv ∧
            ∀ k, i ≤ k → k < j → vc.getD k 0 < mv) := by
  intro n
  induction n with
  | zero =>
    intro i acc _
    exact ⟨acc.1, acc.2, rfl, le_refl _, fun j h1 h2 => by omega, Or.inl ⟨rfl, rfl⟩⟩
  | succ n ih =>
    intro i acc hlen
    have hi : i < vc.length := by omega
    have hget : vc.get? i = some (vc.getD i 0) := by
      rw [List.get?_eq_get hi, List.getD_eq_getElem vc 0 hi]
      rfl
    by_cases hv : vc.getD i 0 > acc.1
    · obtain ⟨mv, mc, he, hle, hall, hor⟩ := ih (i + 1) (vc.getD i 0, (i : Int)) (by omega)
      refine ⟨mv, mc, ?_, ?_, ?_, ?_⟩
      · simp only [scan_loop, hget, Option.bind_eq_bind, Option.some_bind, if_pos hv]
        exact he
      · simp only at hle
        omega
      · intro j h1 h2
        rcases Nat.eq_or_lt_of_le h1 with h | h
        · subst h
          exact hle
        · exact hall j h (by omega)
      · right
        rcases hor with ⟨h1, h2⟩ | ⟨j, h1, h2, h3, h4, h5, h6⟩
        · exact ⟨i, le_refl _, by omega, h2, h1.symm, by simp only at h1; omega,
            fun k hk1 hk2 => by omega⟩
        · refine ⟨j, by omega, by omega, h3, h4, by simp only at h5; omega, ?_⟩
          intro k hk1 hk2
          rcases Nat.eq_or_lt_of_le hk1 with h | h
          · subst h
            exact h5
          · exact h6 k h hk2
    · obtain ⟨mv, mc, he, hle, hall, hor⟩ := ih (i + 1) acc (by omega)
      refine ⟨mv, mc, ?_, hle, ?_, ?_⟩
      · simp only [scan_loop, hget, Option.bind_eq_bind, Option.some_bind, if_neg hv]
        exact he
      · intro j h1 h2
        rcases Nat.eq_or_lt_of_le h1 with h | h
        · subst h
          omega
        · exact hall j h (by omega)
      · rcases hor with h | ⟨j, h1, h2, h3, h4, h5, h6⟩
        · exact Or.inl h
        · right
          refine ⟨j, by omega, by omega, h3, h4, h5, ?_⟩
          intro k hk1 hk2
          rcases Nat.eq_or_lt_of_le hk1 with h | h
          · subst h
            omega
          · exact h6 k h hk2

/-- On a histogram of `NUM_CLASSES` entries with a non-negative entry the scan
ends with the lowest class of maximal count and that count. -/
theorem scan_votes_spec (vc : List Int) (hlen : vc.length = NUM_CLASSES)
    (hpos : ∃ j, j < NUM_CLASSES ∧ 0 ≤ vc.getD j 0) :
    ∃ m : Nat, scan_votes vc = some (vc.getD m 0, (m : Int)) ∧ IsLowestArgmax vc m := by
  obtain ⟨mv, mc, he, _, hall, hor⟩ := scan_loop_spec vc NUM_CLASSES 0 (-1, -1) (by omega)
  obtain ⟨j0, hj0, hj0p⟩ := hpos
  have hb := hall j0 (Nat.zero_le _) (by omega)
  rcases hor with ⟨h1, _⟩ | ⟨j, _, h2, h3, h4, _, h6⟩
  · simp only at h1
    omega
  · refine ⟨j, ?_, by omega, ?_, ?_⟩
    · rw [scan_votes, he, h3, h4]
    · intro k hk
      rw [h4]
      exact hall k (Nat.zero_le _) (by omega)
    · intro k hk
      rw [h4]
      exact h6 k (Nat.zero_le _) hk

/-! ## Invariant of the vote variables -/

theorem cnt_cases (k x : Int) : (x = k ∧ cnt k x = 1) ∨ (x ≠ k ∧ cnt k x = 0) := by
  unfold cnt
  by_cases h : x = k
  · exact Or.inl ⟨h, if_pos h⟩
  · exact Or.inr ⟨h, if_neg h⟩

theorem cnt_sum (x : Int) (h0 : 0 ≤ x) (h1 : x < 7) :
    cnt 0 x + cnt 1 x + cnt 2 x + cnt 3 x + cnt 4 x + cnt 5 x + cnt 6 x = 1 := by
  rcases class_cases x h0 h1 with h | h | h | h | h | h | h <;> subst h <;> rfl

theorem hist_getD (a b c : Int) (m : Nat) (hm : m < 7) :
    (hist_of a b c).getD m 0 = cnt m a + cnt m b + cnt m c - seed_count m := by
  interval_cases m <;> simp [hist_of, seed_count]

theorem indicator_update_vote (s : App) :
    (indicator_update s).clsid = s.clsid ∧ (indicator_update s).votehist = s.votehist ∧
      (indicator_update s).votecounts = s.votecounts := by
  unfold indicator_update LED_ALL_Off LED_STATUS_On
  simp only
  split_ifs <;> exact ⟨rfl, rfl, rfl⟩

theorem hist_has_nonneg (a b c : Int) (ha : 0 ≤ a ∧ a < 7) (hb : 0 ≤ b ∧ b < 7)
    (hc : 0 ≤ c ∧ c < 7) : ∃ j, j < NUM_CLASSES ∧ 0 ≤ (hist_of a b c).getD j 0 := by
  by_contra hcon
  push_neg at hcon
  have e0 := hcon 0 (by decide)
  have e1 := hcon 1 (by decide)
  have e2 := hcon 2 (by decide)
  have e3 := hcon 3 (by decide)
  have e4 := hcon 4 (by decide)
  have e5 := hcon 5 (by decide)
  have e6 := hcon 6 (by decide)
  rw [hist_getD _ _ _ _ (by decide)] at e0 e1 e2 e3 e4 e5 e6
  have sa := cnt_sum a ha.1 ha.2
  have sb := cnt_sum b hb.1 hb.2
  have sc := cnt_sum c hc.1 hc.2
  simp only [seed_count, Nat.cast_ofNat, Nat.cast_zero, Nat.cast_one] at e0 e1 e2 e3 e4 e5 e6
  norm_num at e0 e1 e2 e3 e4 e5 e6
  omega

theorem seed_count_cases (k : Int) :
    (k = 0 ∧ seed_count k = 2) ∨ (k = 1 ∧ seed_count k = 1) ∨
      (k ≠ 0 ∧ k ≠ 1 ∧ seed_count k = 0) := by
  unfold seed_count
  by_cases h0 : k = 0
  · exact Or.inl ⟨h0, if_pos h0⟩
  · by_cases h1 : k = 1
    · exact Or.inr (Or.inl ⟨h1, by rw [if_neg h0, if_pos h1]⟩)
    · exact Or.inr (Or.inr ⟨h0, h1, by rw [if_neg h0, if_neg h1]⟩)

theorem hist_entry_le (a b c : Int) (m : Nat) (hm : m < 7) :
    (hist_of a b c).getD m 0 ≤ 3 := by
  rw [hist_getD a b c m hm]
  rcases cnt_cases m a with h1 | h1 <;> rcases cnt_cases m b with h2 | h2 <;>
  rcases cnt_cases m c with h3 | h3 <;>
  rcases seed_count_cases m with h4 | h4 | h4 <;> omega

/-- A class other than the newest entry with two counted votes fills the two
older entries of the window and is a class of the model other than 0 and 1. -/
theorem hist_other_majority (b c r : Int) (m : Nat) (hm : m < 7)
    (h2 : 2 ≤ (hist_of b c r).getD m 0) (hne : (m : Int) ≠ r) :
    b = (m : Int) ∧ c = (m : Int) ∧ 2 ≤ (m : Int) := by
  rw [hist_getD b c r m hm] at h2
  rcases cnt_cases m b with h1 | h1 <;> rcases cnt_cases m c with h3 | h3 <;>
  rcases cnt_cases m r with h5 | h5 <;>
  rcases seed_count_cases m with h4 | h4 | h4 <;> omega

/-- When the two newest entries are the same class `≥ 2`, that class is the
lowest class of maximal count and its count reaches the majority. -/
theorem hist_two_newest (b c r : Int) (m : Nat) (hcr : c = r) (hc2 : 2 ≤ c) (hc7 : c < 7)
    (hm : IsLowestArgmax (hist_of b c r) m) :
    (m : Int) = c ∧ 2 ≤ (hist_of b c r).getD m 0 := by
  have hm7 : m < 7 := hm.1
  have hc : c.toNat < 7 := by omega
  have hcast : ((c.toNat : Nat) : Int) = c := Int.toNat_of_nonneg (by omega)
  have hge := hm.2.1 c.toNat hc
  have hcv : 2 ≤ (hist_of b c r).getD c.toNat 0 := by
    rw [hist_getD b c r _ hc, hcast]
    rcases cnt_cases c b with h1 | h1 <;> rcases cnt_cases c c with h3 | h3 <;>
    rcases cnt_cases c r with h5 | h5 <;>
    rcases seed_count_cases c with h4 | h4 | h4 <;> omega
  have h2 : 2 ≤ (hist_of b c r).getD m 0 := le_trans hcv hge
  refine ⟨?_, h2⟩
  by_contra hne
  have := hist_other_majority b c r m hm7 h2 (by rw [← hcr]; exact hne)
  omega

theorem to_unsigned_majority (x : Int) (h0 : 0 ≤ x) (h1 : x ≤ 3) :
    to_unsigned x ≥ MAJORITY_VOTES ↔ x ≥ (MAJORITY_VOTES : Int) := by
  have hx : x = 0 ∨ x = 1 ∨ x = 2 ∨ x = 3 := by omega
  rcases hx with h | h | h | h <;> subst h <;> decide

theorem vote_block_nonneg (s u : App) (r : Int) (hr0 : 0 ≤ r)
    (hu : vote_update s r = some u) : vote_block s r = vote_decide u r := by
  simp only [vote_block, if_pos hr0, hu, Option.bind_eq_bind, Option.some_bind]

theorem vote_decide_same (u : App) (r : Int) (h : r = u.clsid) :
    vote_decide u r = some u := by
  simp only [vote_decide, h, ne_eq, not_true_eq_false, if_false, Option.pure_def]

theorem vote_decide_scan (u : App) (r mv mc : Int) (h : r ≠ u.clsid)
    (hs : scan_votes u.votecounts = some (mv, mc)) :
    vote_decide u r =
      if to_unsigned mv ≥ MAJORITY_VOTES ∧ mc ≠ u.clsid then
        some (indicator_update { u with clsid := mc })
      else some u := by
  simp only [vote_decide, ne_eq, h, not_false_eq_true, if_true, hs, Option.bind_eq_bind,
    Option.some_bind, Option.pure_def]

/-- One verdict in `0..6` from a state that satisfies the invariant: the code
returns a state, the invariant holds again, and the new class follows the
decision rule over the updated histogram. -/
theorem vote_block_step (s : App) (r : Int) (hinv : VoteInv s) (hr0 : 0 ≤ r) (hr1 : r < 7) :
    ∃ u t, vote_update s r = some u ∧ vote_block s r = some t ∧ VoteInv t ∧
      u = { s with votehist := u.votehist, votecounts := u.votecounts } ∧
      t.votehist = u.votehist ∧ t.votecounts = u.votecounts ∧
      (t = u ∨ (t.clsid ≠ s.clsid ∧ t = indicator_update { u with clsid := t.clsid })) ∧
      (∃ m, IsLowestArgmax u.votecounts m) ∧
      (∀ m, IsLowestArgmax u.votecounts m →
        t.clsid = if u.votecounts.getD m 0 ≥ (MAJORITY_VOTES : Int) ∧ (m : Int) ≠ s.clsid
          then (m : Int) else s.clsid) := by
  obtain ⟨a, b, c, ha, hb, hc, hvh, hvc, h3⟩ := hinv
  have hu := vote_update_eq s a b c r ha.1 ha.2 hr0 hr1 hvh hvc
  obtain ⟨m0, hscan, hm0⟩ := scan_votes_spec (hist_of b c r) rfl
    (hist_has_nonneg b c r hb hc ⟨hr0, hr1⟩)
  have hm07 : m0 < 7 := hm0.1
  have hmax_le : (hist_of b c r).getD m0 0 ≤ 3 := hist_entry_le b c r m0 hm07
  have hmax_ge : 0 ≤ (hist_of b c r).getD m0 0 := by
    obtain ⟨j, hj, hjp⟩ := hist_has_nonneg b c r hb hc ⟨hr0, hr1⟩
    exact le_trans hjp (hm0.2.1 j hj)
  have hmaj := to_unsigned_majority _ hmax_ge hmax_le
  refine ⟨{ s with votehist := [b, c, r], votecounts := hist_of b c r }, ?_⟩
  by_cases hrc : r = s.clsid
  · -- the verdict repeats the current class: no scan
    refine ⟨{ s with votehist := [b, c, r], votecounts := hist_of b c r }, hu, ?_, ?_, rfl, rfl,
      rfl, Or.inl rfl, ⟨m0, hm0⟩, ?_⟩
    · rw [vote_block_nonneg s _ r hr0 hu]
      exact vote_decide_same _ r hrc
    · exact ⟨b, c, r, hb, hc, ⟨hr0, hr1⟩, rfl, rfl, fun h _ => by
        show s.clsid = c
        rw [h, hrc]⟩
    · intro m hm
      have hcond : ¬ ((hist_of b c r).getD m 0 ≥ (MAJORITY_VOTES : Int) ∧
          (m : Int) ≠ s.clsid) := by
        rintro ⟨hge, hne⟩
        have := hist_other_majority b c r m hm.1 hge (by rw [hrc]; exact hne)
        have h4 := h3 (by omega) (by omega)
        omega
      show s.clsid = _
      rw [if_neg hcond]
  · -- the verdict differs from the current class: scan and decide
    have hdec := vote_decide_scan { s with votehist := [b, c, r], votecounts := hist_of b c r }
      r _ _ hrc hscan
    by_cases hcond : to_unsigned ((hist_of b c r).getD m0 0) ≥ MAJORITY_VOTES ∧
        (m0 : Int) ≠ s.clsid
    · rw [if_pos hcond] at hdec
      obtain ⟨i1, i2, i3⟩ := indicator_update_vote
        { s with votehist := [b, c, r], votecounts := hist_of b c r, clsid := (m0 : Int) }
      refine ⟨_, hu, ?_, ?_, rfl, i2, i3, Or.inr ⟨?_, ?_⟩, ⟨m0, hm0⟩, ?_⟩
      · rw [vote_block_nonneg s _ r hr0 hu]
        exact hdec
      · refine ⟨b, c, r, hb, hc, ⟨hr0, hr1⟩, i2, i3, fun h h2 => ?_⟩
        rw [i1]
        exact (hist_two_newest b c r m0 h h2 hc.2 hm0).1
      · rw [i1]
        exact hcond.2
      · rw [i1]
      · intro m hm
        have hmm : m = m0 := hm.unique hm0
        subst hmm
        rw [i1]
        show (m : Int) = _
        rw [if_pos ⟨hmaj.mp hcond.1, hcond.2⟩]
    · rw [if_neg hcond] at hdec
      refine ⟨_, hu, ?_, ?_, rfl, rfl, rfl, Or.inl rfl, ⟨m0, hm0⟩, ?_⟩
      · rw [vote_block_nonneg s _ r hr0 hu]
        exact hdec
      · refine ⟨b, c, r, hb, hc, ⟨hr0, hr1⟩, rfl, rfl, fun h h2 => ?_⟩
        show s.clsid = c
        obtain ⟨e1, e2⟩ := hist_two_newest b c r m0 h h2 hc.2 hm0
        by_contra hne
        exact hcond ⟨hmaj.mpr e2, by rw [e1]; exact fun h => hne h.symm⟩
      · intro m hm
        have hmm : m = m0 := hm.unique hm0
        subst hmm
        show s.clsid = _
        rw [if_neg (fun h => hcond ⟨hmaj.mpr h.1, h.2⟩)]

theorem init_inv (s0 : App)
    (h0 : s0.clsid = 1 ∧ s0.votehist = [1, 0, 0] ∧ s0.votecounts = [0, 0, 0, 0, 0, 0, 0]) :
    VoteInv s0 :=
  ⟨1, 0, 0, by decide, by decide, by decide, h0.2.1, h0.2.2, fun _ h => absurd h (by decide)⟩

/-- A stream of verdicts in `0..6` from a state that satisfies the invariant
is processed without an out-of-bounds access and ends in such a state. -/
theorem feed_inv (rs : List Int) :
    ∀ s : App, VoteInv s → (∀ x ∈ rs, 0 ≤ x ∧ x < (NUM_CLASSES : Int)) →
      ∃ t, feed s rs = some t ∧ VoteInv t := by
  induction rs with
  | nil => exact fun s h _ => ⟨s, rfl, h⟩
  | cons r rs ih =>
    intro s hinv hrs
    have hr := hrs r (List.mem_cons_self r rs)
    obtain ⟨_, t, _, ht, hti, _⟩ := vote_block_step s r hinv hr.1 hr.2
    obtain ⟨w, hw, hwi⟩ := ih t hti (fun x hx => hrs x (List.mem_cons_of_mem r hx))
    refine ⟨w, ?_, hwi⟩
    simp only [feed, ht, Option.bind_eq_bind, Option.some_bind]
    exact hw

theorem vote_block_neg (s : App) (ret : Int) (hneg : ret < 0) : vote_block s ret = some s := by
  have h : ¬ 0 ≤ ret := by omega
  simp only [vote_block, if_neg h, Option.pure_def]

theorem feed_filter (rs : List Int) :
    ∀ s : App, feed s rs = feed s (rs.filter (fun r => decide (0 ≤ r))) := by
  induction rs with
  | nil => exact fun _ => rfl
  | cons r rs ih =>
    intro s
    by_cases hr : 0 ≤ r
    · rw [List.filter_cons_of_pos (by simpa using hr)]
      simp only [feed, Option.bind_eq_bind]
      cases vote_block s r with
      | none => rfl
      | some t => exact ih t
    · rw [List.filter_cons_of_neg (by simpa using hr)]
      simp only [feed, vote_block_neg s r (by omega), Option.bind_eq_bind, Option.some_bind]
      exact ih s

/-- Once the window holds three votes for class 6 and class 6 is current, a
further frame that classifies as 6 changes neither the class nor the rate. -/
theorem drain_sixes_steady (k : Nat) :
    ∀ (rets : List Int) (st : Int) (rb : ringbuffer_t) (ov : Bool) (hd : Handler) (n : Nat),
      k ≤ rets.length → (∀ x ∈ rets, x = 6) →
      ∃ t, drain_loop k rets ⟨50, false, st, rb, ov, hd, 6, [6, 6, 6],
          [-2, -1, 0, 0, 0, 0, 3], n⟩ = some t ∧ t.clsid = 6 ∧ t.tickrate = 50 := by
  induction k with
  | zero => exact fun rets st rb ov hd n _ _ => ⟨_, rfl, rfl, rfl⟩
  | succ k ih =>
    intro rets st rb ov hd n hlen hall
    cases rets with
    | nil => simp at hlen
    | cons r rs =>
      have hr : r = 6 := hall r (List.mem_cons_self r rs)
      subst hr
      have e : process_frame ⟨50, false, st, rb, ov, hd, 6, [6, 6, 6],
          [-2, -1, 0, 0, 0, 0, 3], n⟩ 6 =
          some ⟨50, false, st, ringbuffer_advance_read_index rb 1, ov, hd, 6, [6, 6, 6],
            [-2, -1, 0, 0, 0, 0, 3], n⟩ := rfl
      simp only [drain_loop, e, Option.bind_eq_bind, Option.some_bind]
      exact ih rs st _ ov hd n (by simpa using hlen)
        (fun x hx => hall x (List.mem_cons_of_mem _ hx))

/-- The first three frames of a batch of sixes from the initial vote variables. -/
theorem drain_sixes_start (tr : Nat) (led : Bool) (st : Int) (rb : ringbuffer_t) (ov : Bool)
    (hd : Handler) (n k : Nat) (rs : List Int) :
    drain_loop 1 (6 :: rs) ⟨tr, led, st, rb, ov, hd, 1, [1, 0, 0], [0, 0, 0, 0, 0, 0, 0], n⟩ =
      some ⟨tr, led, st, ringbuffer_advance_read_index rb 1, ov, hd, 1, [0, 0, 6],
        [0, -1, 0, 0, 0, 0, 1], n⟩ ∧
    drain_loop 2 (6 :: 6 :: rs)
        ⟨tr, led, st, rb, ov, hd, 1, [1, 0, 0], [0, 0, 0, 0, 0, 0, 0], n⟩ =
      some ⟨50, false, st,
        ringbuffer_advance_read_index (ringbuffer_advance_read_index rb 1) 1, ov, hd, 6,
        [0, 6, 6], [-1, -1, 0, 0, 0, 0, 2], n⟩ ∧
    drain_loop (k + 3) (6 :: 6 :: 6 :: rs)
        ⟨tr, led, st, rb, ov, hd, 1, [1, 0, 0], [0, 0, 0, 0, 0, 0, 0], n⟩ =
      drain_loop k rs ⟨50, false, st,
        ringbuffer_advance_read_index
          (ringbuffer_advance_read_index (ringbuffer_advance_read_index rb 1) 1) 1,
        ov, hd, 6, [6, 6, 6], [-2, -1, 0, 0, 0, 0, 3], n⟩ := by
  have e1 : ∀ b : ringbuffer_t, process_frame
      ⟨tr, led, st, b, ov, hd, 1, [1, 0, 0], [0, 0, 0, 0, 0, 0, 0], n⟩ 6 =
      some ⟨tr, led, st, ringbuffer_advance_read_index b 1, ov, hd, 1, [0, 0, 6],
        [0, -1, 0, 0, 0, 0, 1], n⟩ := fun _ => rfl
  have e2 : ∀ b : ringbuffer_t, process_frame
      ⟨tr, led, st, b, ov, hd, 1, [0, 0, 6], [0, -1, 0, 0, 0, 0, 1], n⟩ 6 =
      some ⟨50, false, st, ringbuffer_advance_read_index b 1, ov, hd, 6, [0, 6, 6],
        [-1, -1, 0, 0, 0, 0, 2], n⟩ := fun _ => rfl
  have e3 : ∀ b : ringbuffer_t, process_frame
      ⟨50, false, st, b, ov, hd, 6, [0, 6, 6], [-1, -1, 0, 0, 0, 0, 2], n⟩ 6 =
      some ⟨50, false, st, ringbuffer_advance_read_index b 1, ov, hd, 6, [6, 6, 6],
        [-2, -1, 0, 0, 0, 0, 3], n⟩ := fun _ => rfl
  simp only [drain_loop, e1, e2, e3, Option.bind_eq_bind, Option.some_bind, and_self]

/-! ## Lemmas on the interrupt handler and the recovery branch -/

theorem isr_gated (s : App) (d : SensorData)
    (h : s.sensor_status ≠ SNSR_STATUS_OK ∨ s.snsr_buffer_overrun = true) :
    SNSR_ISR_HANDLER s d = s := by
  simp only [SNSR_ISR_HANDLER, if_pos h]

theorem isr_burst_gated (ds : List SensorData) :
    ∀ s : App, (s.sensor_status ≠ SNSR_STATUS_OK ∨ s.snsr_buffer_overrun = true) →
      ds.foldl SNSR_ISR_HANDLER s = s := by
  induction ds with
  | nil => exact fun _ _ => rfl
  | cons d ds ih =>
    intro s h
    rw [List.foldl_cons, isr_gated s d h]
    exact ih s h

theorem interrupt_quiet (s : App) (d : SensorData) (h : quiet s) : sensor_interrupt s d = s := by
  unfold sensor_interrupt
  cases hh : s.int_handler with
  | Null_Handler => rfl
  | SNSR_ISR_HANDLER =>
    rcases h with h | h
    · exact isr_gated s d (Or.inr h)
    · rw [hh] at h
      cases h

theorem burst_quiet (ds : List SensorData) (s : App) (h : quiet s) :
    ds.foldl sensor_interrupt s = s := by
  induction ds with
  | nil => rfl
  | cons d ds ih => rw [List.foldl_cons, interrupt_quiet s d h, ih]

/-- Interrupts that fire only in quiet states leave the run of the statements
as it is without interrupts. -/
theorem exec_interleaved_quiet (irq : Nat → List SensorData) (l : List Stmt) :
    ∀ (i : Nat) (s : App), all_quiet l s → exec_interleaved irq i l s = exec_stmts l s := by
  induction l with
  | nil => exact fun _ _ _ => rfl
  | cons st rest ih =>
    intro i s h
    simp only [exec_interleaved, exec_stmts, burst_quiet (irq i) s h.1]
    exact ih (i + 1) _ h.2

theorem recovery_result (s : App) :
    exec_stmts overrun_recovery s =
      { s with tickrate := TICK_RATE_SLOW, led_status := false,
               snsr_buffer := ringbuffer_reset s.snsr_buffer,
               snsr_buffer_overrun := false,
               int_handler := Handler.SNSR_ISR_HANDLER } := rfl

theorem main_loop_overrun (s : App) (rets : List Int)
    (hst : s.sensor_status = SNSR_STATUS_OK) (hov : s.snsr_buffer_overrun = true) :
    main_loop_iteration s rets = some (false, exec_stmts overrun_recovery s) := by
  simp only [main_loop_iteration, hst, ne_eq, not_true_eq_false, if_false, hov, if_true]

/-- The two branches of the handler in a state that passes its guard. -/
theorem isr_behaviour (s : App) (d : SensorData)
    (hst : s.sensor_status = SNSR_STATUS_OK) (hov : s.snsr_buffer_overrun = false) :
    ((ringbuffer_get_write_buffer s.snsr_buffer).2 = 0 →
      SNSR_ISR_HANDLER s d = { s with snsr_buffer_overrun := true } ∧
      (SNSR_ISR_HANDLER s d).sensor_reads = s.sensor_reads ∧
      (SNSR_ISR_HANDLER s d).snsr_buffer = s.snsr_buffer) ∧
    ((ringbuffer_get_write_buffer s.snsr_buffer).2 ≠ 0 →
      (SNSR_ISR_HANDLER s d).sensor_reads = s.sensor_reads + 1 ∧
      (SNSR_ISR_HANDLER s d).sensor_status =
        (sensor_read d (s.snsr_buffer.slots.getD
          (ringbuffer_get_write_buffer s.snsr_buffer).1 [])).1 ∧
      (SNSR_ISR_HANDLER s d).sensor_status = d.status ∧
      (SNSR_ISR_HANDLER s d).snsr_buffer.slots =
        s.snsr_buffer.slots.set (ringbuffer_get_write_buffer s.snsr_buffer).1
          (sensor_read d (s.snsr_buffer.slots.getD
            (ringbuffer_get_write_buffer s.snsr_buffer).1 [])).2 ∧
      (SNSR_ISR_HANDLER s d).snsr_buffer_overrun = false ∧
      (SNSR_ISR_HANDLER s d).snsr_buffer.ridx = s.snsr_buffer.ridx ∧
      (SNSR_ISR_HANDLER s d).snsr_buffer.capacity = s.snsr_buffer.capacity ∧
      ((SNSR_ISR_HANDLER s d).snsr_buffer.widx = s.snsr_buffer.widx + 1 ↔
        d.status = SNSR_STATUS_OK) ∧
      (d.status ≠ SNSR_STATUS_OK →
        (SNSR_ISR_HANDLER s d).snsr_buffer.widx = s.snsr_buffer.widx)) := by
  have hg : ¬ (s.sensor_status ≠ SNSR_STATUS_OK ∨ s.snsr_buffer_overrun = true) := by
    rw [hst, hov]
    simp
  have hs : (sensor_read d (s.snsr_buffer.slots.getD
      (ringbuffer_get_write_buffer s.snsr_buffer).1 [])).1 = d.status := by
    unfold sensor_read bmi160_sensor_read
    split_ifs <;> rfl
  constructor
  · intro hw
    have e : SNSR_ISR_HANDLER s d = { s with snsr_buffer_overrun := true } := by
      unfold SNSR_ISR_HANDLER
      rw [if_neg hg]
      dsimp only
      rw [if_pos hw]
    exact ⟨e, by rw [e], by rw [e]⟩
  · intro hw
    by_cases hd : d.status = SNSR_STATUS_OK
    · have e : SNSR_ISR_HANDLER s d =
          { s with
            sensor_status := d.status
            snsr_buffer :=
              { s.snsr_buffer with
                slots := s.snsr_buffer.slots.set (ringbuffer_get_write_buffer s.snsr_buffer).1
                  (sensor_read d (s.snsr_buffer.slots.getD
                    (ringbuffer_get_write_buffer s.snsr_buffer).1 [])).2
                widx := s.snsr_buffer.widx + 1 }
            sensor_reads := s.sensor_reads + 1 } := by
        unfold SNSR_ISR_HANDLER
        rw [if_neg hg]
        dsimp only
        rw [if_neg hw, if_pos (by rw [hs]; exact hd), hs]
        rfl
      rw [e]
      exact ⟨rfl, hs.symm, rfl, rfl, hov, rfl, rfl, ⟨fun _ => hd, fun _ => rfl⟩,
        fun h => absurd hd h⟩
    · have e : SNSR_ISR_HANDLER s d =
          { s with
            sensor_status := d.status
            snsr_buffer :=
              { s.snsr_buffer with
                slots := s.snsr_buffer.slots.set (ringbuffer_get_write_buffer s.snsr_buffer).1
                  (sensor_read d (s.snsr_buffer.slots.getD
                    (ringbuffer_get_write_buffer s.snsr_buffer).1 [])).2 }
            sensor_reads := s.sensor_reads + 1 } := by
        unfold SNSR_ISR_HANDLER
        rw [if_neg hg]
        dsimp only
        rw [if_neg hw, if_neg (by rw [hs]; exact hd), hs]
      rw [e]
      refine ⟨rfl, hs.symm, rfl, rfl, hov, rfl, rfl, ⟨fun h => ?_, fun h => absurd h hd⟩,
        fun _ => rfl⟩
      exact absurd h (by simp)

/-! ## The claims -/

/-- C1: in every state reached from the initial vote variables by verdicts in
`0..6`, a further verdict `r` in `0..6` is processed to a state whose class is
the lowest class `m` of maximal count in the updated histogram when that count
is at least `MAJORITY_VOTES` and `m` differs from the old class, and the old
class otherwise; this covers the case `r = clsid`, where no scan runs. -/
theorem C1_decision_rule (s0 s : App) (rs : List Int) (r : Int)
    (h0 : s0.clsid = 1 ∧ s0.votehist = [1, 0, 0] ∧ s0.votecounts = [0, 0, 0, 0, 0, 0, 0])
    (hrs : ∀ x ∈ rs, 0 ≤ x ∧ x < (NUM_CLASSES : Int))
    (hs : feed s0 rs = some s) (hr : 0 ≤ r ∧ r < (NUM_CLASSES : Int)) :
    ∃ u t, vote_update s r = some u ∧ vote_block s r = some t ∧
      t.votehist = u.votehist ∧ t.votecounts = u.votecounts ∧
      (∃ m, IsLowestArgmax u.votecounts m) ∧
      (∀ m, IsLowestArgmax u.votecounts m →
        t.clsid = if u.votecounts.getD m 0 ≥ (MAJORITY_VOTES : Int) ∧ (m : Int) ≠ s.clsid
          then (m : Int) else s.clsid) := by
  obtain ⟨w, hw, hwi⟩ := feed_inv rs s0 (init_inv s0 h0) hrs
  rw [hs] at hw
  cases hw
  obtain ⟨u, t, h1, h2, _, _, h5, h6, _, h8, h9⟩ := vote_block_step s r hwi hr.1 hr.2
  exact ⟨u, t, h1, h2, h5, h6, h8, h9⟩

theorem C1_decision_rule_witness :
    (init_state.clsid = 1 ∧ init_state.votehist = [1, 0, 0] ∧
      init_state.votecounts = [0, 0, 0, 0, 0, 0, 0]) ∧
    (∀ x ∈ [(2 : Int), 2], 0 ≤ x ∧ x < (NUM_CLASSES : Int)) ∧
    feed init_state [2, 2] = some state_2_2 ∧
    (0 ≤ (2 : Int) ∧ (2 : Int) < (NUM_CLASSES : Int)) ∧
    ∃ u t, vote_update state_2_2 2 = some u ∧ vote_block state_2_2 2 = some t ∧
      t.votehist = u.votehist ∧ t.votecounts = u.votecounts ∧
      (∃ m, IsLowestArgmax u.votecounts m) ∧
      (∀ m, IsLowestArgmax u.votecounts m →
        t.clsid = if u.votecounts.getD m 0 ≥ (MAJORITY_VOTES : Int) ∧
            (m : Int) ≠ state_2_2.clsid
          then (m : Int) else state_2_2.clsid) :=
  ⟨⟨rfl, rfl, rfl⟩, by decide, by decide, by decide,
    C1_decision_rule init_state state_2_2 [2, 2] 2 ⟨rfl, rfl, rfl⟩ (by decide) (by decide)
      (by decide)⟩

/-- C2: a negative classifier result leaves the whole vote state as it is (the
frame only advances the read index of the buffer), and two verdict streams
with the same non-negative verdicts in the same order end in the same state. -/
theorem C2_sentinel_noop (s : App) (ret : Int) (hneg : ret < 0) :
    vote_block s ret = some s ∧
    process_frame s ret =
      some { s with snsr_buffer := ringbuffer_advance_read_index s.snsr_buffer 1 } ∧
    (∀ (t : App) (rs : List Int), feed t rs = feed t (rs.filter (fun r => decide (0 ≤ r)))) ∧
    (∀ (t : App) (rs qs : List Int),
      rs.filter (fun r => decide (0 ≤ r)) = qs.filter (fun r => decide (0 ≤ r)) →
        feed t rs = feed t qs) := by
  refine ⟨vote_block_neg s ret hneg, vote_block_neg _ ret hneg, fun t rs => feed_filter rs t, ?_⟩
  intro t rs qs h
  rw [feed_filter rs t, feed_filter qs t, h]

theorem C2_sentinel_noop_witness :
    (-1 : Int) < 0 ∧ vote_block state_2_2 (-1) = some state_2_2 ∧
    process_frame state_2_2 (-1) =
      some { state_2_2 with
        snsr_buffer := ringbuffer_advance_read_index state_2_2.snsr_buffer 1 } ∧
    feed init_state [-1, 2, -1, -1, 2, -1] = feed init_state [2, 2] :=
  ⟨by decide, (C2_sentinel_noop state_2_2 (-1) (by decide)).1,
    (C2_sentinel_noop state_2_2 (-1) (by decide)).2.1,
    (C2_sentinel_noop state_2_2 (-1) (by decide)).2.2.2 init_state _ _ rfl⟩

/-- C3 as stated fails: from the initial state the stream `[2, 2, 2, 2, 2]`
makes class 2 current after the 2nd verdict already, not after the 3rd. -/
theorem C3_counterexample :
    clsid_after init_state [2, 2] = some 2 ∧
    ¬ (clsid_after init_state [2] = some 1 ∧ clsid_after init_state [2, 2] = some 1 ∧
      clsid_after init_state [2, 2, 2] = some 2 ∧
      clsid_after init_state [2, 2, 2, 2] = some 2 ∧
      clsid_after init_state [2, 2, 2, 2, 2] = some 2) := by
  decide

/-- C3 amended: from the initial vote variables the stream `[2, 2, 2, 2, 2]`
leaves class 1 current after the 1st verdict, makes class 2 current after the
2nd verdict, and class 2 stays current after the 3rd, 4th and 5th verdict. -/
theorem C3_stream_of_twos (s0 : App) (h0 : VoteInit s0) :
    clsid_after s0 [2] = some 1 ∧ clsid_after s0 [2, 2] = some 2 ∧
      clsid_after s0 [2, 2, 2] = some 2 ∧ clsid_after s0 [2, 2, 2, 2] = some 2 ∧
      clsid_after s0 [2, 2, 2, 2, 2] = some 2 := by
  obtain ⟨tr, led, st, rb, ov, hd, c, vh, vc, n⟩ := s0
  obtain ⟨h1, h2, h3⟩ := h0
  simp only at h1 h2 h3
  subst h1 h2 h3
  have e1 : vote_block ⟨tr, led, st, rb, ov, hd, 1, [1, 0, 0], [0, 0, 0, 0, 0, 0, 0], n⟩ 2 =
      some ⟨tr, led, st, rb, ov, hd, 1, [0, 0, 2], [0, -1, 1, 0, 0, 0, 0], n⟩ := rfl
  have e2 : vote_block ⟨tr, led, st, rb, ov, hd, 1, [0, 0, 2], [0, -1, 1, 0, 0, 0, 0], n⟩ 2 =
      some ⟨100, false, st, rb, ov, hd, 2, [0, 2, 2], [-1, -1, 2, 0, 0, 0, 0], n⟩ := rfl
  have e3 : vote_block ⟨100, false, st, rb, ov, hd, 2, [0, 2, 2], [-1, -1, 2, 0, 0, 0, 0], n⟩ 2 =
      some ⟨100, false, st, rb, ov, hd, 2, [2, 2, 2], [-2, -1, 3, 0, 0, 0, 0], n⟩ := rfl
  have e4 : vote_block ⟨100, false, st, rb, ov, hd, 2, [2, 2, 2], [-2, -1, 3, 0, 0, 0, 0], n⟩ 2 =
      some ⟨100, false, st, rb, ov, hd, 2, [2, 2, 2], [-2, -1, 3, 0, 0, 0, 0], n⟩ := rfl
  simp only [clsid_after, feed, e1, e2, e3, e4, Option.bind_eq_bind, Option.some_bind,
    Option.map_some', and_self]

theorem C3_stream_of_twos_witness :
    VoteInit init_state ∧
    (clsid_after init_state [2] = some 1 ∧ clsid_after init_state [2, 2] = some 2 ∧
      clsid_after init_state [2, 2, 2] = some 2 ∧ clsid_after init_state [2, 2, 2, 2] = some 2 ∧
      clsid_after init_state [2, 2, 2, 2, 2] = some 2) :=
  ⟨⟨rfl, rfl, rfl⟩, C3_stream_of_twos init_state ⟨rfl, rfl, rfl⟩⟩

/-- C4 as stated fails: from the initial state the stream `[1, 2, 1, 2, 1]`
makes class 2 current at the 4th verdict, when the window is `[2, 1, 2]`. -/
theorem C4_counterexample :
    clsid_after init_state [1, 2, 1, 2] = some 2 ∧
    ¬ (clsid_after init_state [1] = some 1 ∧ clsid_after init_state [1, 2] = some 1 ∧
      clsid_after init_state [1, 2, 1] = some 1 ∧
      clsid_after init_state [1, 2, 1, 2] = some 1 ∧
      clsid_after init_state [1, 2, 1, 2, 1] = some 1) := by
  decide

/-- C4 amended: from the initial vote variables the stream `[1, 2, 1, 2, 1]`
leaves class 1 current after each of its first three verdicts and makes class
2 current after its 4th verdict, whose window `[2, 1, 2]` holds two votes for
class 2. -/
theorem C4_alternating_stream (s0 : App) (h0 : VoteInit s0) :
    clsid_after s0 [1] = some 1 ∧ clsid_after s0 [1, 2] = some 1 ∧
      clsid_after s0 [1, 2, 1] = some 1 ∧ clsid_after s0 [1, 2, 1, 2] = some 2 ∧
      (feed s0 [1, 2, 1, 2]).map (fun t => t.votehist) = some [2, 1, 2] := by
  obtain ⟨tr, led, st, rb, ov, hd, c, vh, vc, n⟩ := s0
  obtain ⟨h1, h2, h3⟩ := h0
  simp only at h1 h2 h3
  subst h1 h2 h3
  have e1 : vote_block ⟨tr, led, st, rb, ov, hd, 1, [1, 0, 0], [0, 0, 0, 0, 0, 0, 0], n⟩ 1 =
      some ⟨tr, led, st, rb, ov, hd, 1, [0, 0, 1], [0, 0, 0, 0, 0, 0, 0], n⟩ := rfl
  have e2 : vote_block ⟨tr, led, st, rb, ov, hd, 1, [0, 0, 1], [0, 0, 0, 0, 0, 0, 0], n⟩ 2 =
      some ⟨tr, led, st, rb, ov, hd, 1, [0, 1, 2], [-1, 0, 1, 0, 0, 0, 0], n⟩ := rfl
  have e3 : vote_block ⟨tr, led, st, rb, ov, hd, 1, [0, 1, 2], [-1, 0, 1, 0, 0, 0, 0], n⟩ 1 =
      some ⟨tr, led, st, rb, ov, hd, 1, [1, 2, 1], [-2, 1, 1, 0, 0, 0, 0], n⟩ := rfl
  have e4 : vote_block ⟨tr, led, st, rb, ov, hd, 1, [1, 2, 1], [-2, 1, 1, 0, 0, 0, 0], n⟩ 2 =
      some ⟨100, false, st, rb, ov, hd, 2, [2, 1, 2], [-2, 0, 2, 0, 0, 0, 0], n⟩ := rfl
  simp only [clsid_after, feed, e1, e2, e3, e4, Option.bind_eq_bind, Option.some_bind,
    Option.map_some', and_self]

theorem C4_alternating_stream_witness :
    VoteInit init_state ∧
    (clsid_after init_state [1] = some 1 ∧ clsid_after init_state [1, 2] = some 1 ∧
      clsid_after init_state [1, 2, 1] = some 1 ∧
      clsid_after init_state [1, 2, 1, 2] = some 2 ∧
      (feed init_state [1, 2, 1, 2]).map (fun t => t.votehist) = some [2, 1, 2]) :=
  ⟨⟨rfl, rfl, rfl⟩, C4_alternating_stream init_state ⟨rfl, rfl, rfl⟩⟩

/-- C5: with the vote variables at their initial values and a batch of ten
frames that all classify as 6, the drain processes ten frames; class 1 is
current after the 1st frame with `tickrate` untouched, class 6 is current
after the 2nd frame and after every later frame, and `tickrate` is 50 from
the 2nd frame to the 10th, so the batch holds exactly one transition. -/
theorem C5_batch_of_sixes (s : App) (h0 : VoteInit s)
    (hcnt : (ringbuffer_get_read_buffer s.snsr_buffer).2 = 10) :
    drain_batch s (List.replicate 10 6) = drain_loop 10 (List.replicate 10 6) s ∧
    class_tickrate s 6 = 50 ∧
    drain_trace s (List.replicate 10 6) 10 =
      [some (1, s.tickrate), some (6, 50), some (6, 50), some (6, 50), some (6, 50),
       some (6, 50), some (6, 50), some (6, 50), some (6, 50), some (6, 50)] := by
  refine ⟨by rw [drain_batch, hcnt], rfl, ?_⟩
  obtain ⟨tr, led, st, rb, ov, hd, c, vh, vc, n⟩ := s
  obtain ⟨h1, h2, h3⟩ := h0
  simp only at h1 h2 h3
  subst h1 h2 h3
  have hrep : List.replicate 10 (6 : Int) = [6, 6, 6, 6, 6, 6, 6, 6, 6, 6] := rfl
  have key : ∀ k, k ≤ 7 →
      (drain_loop (k + 3) (List.replicate 10 6)
        ⟨tr, led, st, rb, ov, hd, 1, [1, 0, 0], [0, 0, 0, 0, 0, 0, 0], n⟩).map
          (fun t => (t.clsid, t.tickrate)) = some (6, 50) := by
    intro k hk
    rw [hrep, (drain_sixes_start tr led st rb ov hd n k [6, 6, 6, 6, 6, 6, 6]).2.2]
    obtain ⟨t, ht, hc, hr⟩ := drain_sixes_steady k [6, 6, 6, 6, 6, 6, 6] st
      (ringbuffer_advance_read_index
        (ringbuffer_advance_read_index (ringbuffer_advance_read_index rb 1) 1) 1) ov hd n
      (by simpa using hk) (by decide)
    rw [ht, Option.map_some', hc, hr]
  have k1 := (drain_sixes_start tr led st rb ov hd n 0 [6, 6, 6, 6, 6, 6, 6, 6, 6]).1
  have k2 := (drain_sixes_start tr led st rb ov hd n 0 [6, 6, 6, 6, 6, 6, 6, 6]).2.1
  simp only [drain_trace, List.range, List.range.loop, List.map]
  rw [hrep] at key
  rw [hrep, k1, k2, key 0 (by omega), key 1 (by omega), key 2 (by omega), key 3 (by omega),
    key 4 (by omega), key 5 (by omega), key 6 (by omega), key 7 (by omega)]
  rfl

theorem C5_batch_of_sixes_witness :
    VoteInit state_batch10 ∧ (ringbuffer_get_read_buffer state_batch10.snsr_buffer).2 = 10 ∧
    (drain_batch state_batch10 (List.replicate 10 6) =
      drain_loop 10 (List.replicate 10 6) state_batch10 ∧
    class_tickrate state_batch10 6 = 50 ∧
    drain_trace state_batch10 (List.replicate 10 6) 10 =
      [some (1, state_batch10.tickrate), some (6, 50), some (6, 50), some (6, 50),
       some (6, 50), some (6, 50), some (6, 50), some (6, 50), some (6, 50), some (6, 50)]) :=
  ⟨⟨rfl, rfl, rfl⟩, by decide, C5_batch_of_sixes state_batch10 ⟨rfl, rfl, rfl⟩ (by decide)⟩

/-- C6 fails on the code: after the single verdict 2 from the initial state the
window is `[0, 0, 2]` and the histogram is `[0, -1, 1, 0, 0, 0, 0]`; the count
of class 0 is 0 though two entries of the window are 0, the count of class 1
is negative, and the seven counts sum to 0, not to `NUM_VOTES`. -/
theorem C6_histogram_out_of_sync :
    ∃ t, feed init_state [2] = some t ∧ t.votehist = [0, 0, 2] ∧
      t.votecounts = [0, -1, 1, 0, 0, 0, 0] ∧
      t.votehist.count 0 = 2 ∧ t.votecounts.getD 0 0 = 0 ∧
      t.votehist.count 1 = 0 ∧ t.votecounts.getD 1 0 = -1 ∧
      t.votecounts.sum = 0 ∧ t.votecounts.sum ≠ (NUM_VOTES : Int) :=
  ⟨_, rfl, by decide⟩

/-- C7: while the overrun flag is set or the sensor status is not OK, an
invocation of `SNSR_ISR_HANDLER` returns the state as it was: no sensor read,
same write index, same buffer contents, same status, same flag; so does any
number of consecutive invocations, and of interrupts that dispatch to it. -/
theorem C7_isr_gated (s : App) (d : SensorData)
    (h : s.snsr_buffer_overrun = true ∨ s.sensor_status ≠ SNSR_STATUS_OK) :
    SNSR_ISR_HANDLER s d = s ∧
    (SNSR_ISR_HANDLER s d).sensor_reads = s.sensor_reads ∧
    (SNSR_ISR_HANDLER s d).snsr_buffer.widx = s.snsr_buffer.widx ∧
    (SNSR_ISR_HANDLER s d).snsr_buffer.slots = s.snsr_buffer.slots ∧
    (SNSR_ISR_HANDLER s d).sensor_status = s.sensor_status ∧
    (SNSR_ISR_HANDLER s d).snsr_buffer_overrun = s.snsr_buffer_overrun ∧
    (∀ ds : List SensorData, ds.foldl SNSR_ISR_HANDLER s = s) ∧
    (s.int_handler = Handler.SNSR_ISR_HANDLER →
      ∀ ds : List SensorData, ds.foldl sensor_interrupt s = s) := by
  have hg : s.sensor_status ≠ SNSR_STATUS_OK ∨ s.snsr_buffer_overrun = true := h.symm
  have e := isr_gated s d hg
  refine ⟨e, by rw [e], by rw [e], by rw [e], by rw [e], by rw [e],
    fun ds => isr_burst_gated ds s hg, ?_⟩
  intro hh ds
  induction ds with
  | nil => rfl
  | cons x xs ih =>
    rw [List.foldl_cons]
    have : sensor_interrupt s x = s := by
      unfold sensor_interrupt
      rw [hh]
      exact isr_gated s x hg
    rw [this, ih]

theorem C7_isr_gated_witness :
    (state_overrun_2.snsr_buffer_overrun = true ∨
      state_overrun_2.sensor_status ≠ SNSR_STATUS_OK) ∧
    (SNSR_ISR_HANDLER state_overrun_2 sample_ok = state_overrun_2 ∧
    (SNSR_ISR_HANDLER state_overrun_2 sample_ok).sensor_reads = state_overrun_2.sensor_reads ∧
    (SNSR_ISR_HANDLER state_overrun_2 sample_ok).snsr_buffer.widx =
      state_overrun_2.snsr_buffer.widx ∧
    (SNSR_ISR_HANDLER state_overrun_2 sample_ok).snsr_buffer.slots =
      state_overrun_2.snsr_buffer.slots ∧
    (SNSR_ISR_HANDLER state_overrun_2 sample_ok).sensor_status =
      state_overrun_2.sensor_status ∧
    (SNSR_ISR_HANDLER state_overrun_2 sample_ok).snsr_buffer_overrun =
      state_overrun_2.snsr_buffer_overrun ∧
    (∀ ds : List SensorData, ds.foldl SNSR_ISR_HANDLER state_overrun_2 = state_overrun_2) ∧
    (state_overrun_2.int_handler = Handler.SNSR_ISR_HANDLER →
      ∀ ds : List SensorData, ds.foldl sensor_interrupt state_overrun_2 = state_overrun_2)) :=
  ⟨Or.inl (by decide), C7_isr_gated state_overrun_2 sample_ok (Or.inl (by decide))⟩

/-- C8: with the sensor status OK and the overrun flag clear, `SNSR_ISR_HANDLER`
sets the flag and changes nothing else when the buffer reports zero writable
slots; otherwise it reads the sensor once into the reported slot, stores the
result of the read in the status, leaves the flag clear, and advances the
write index by one slot exactly when the read result is OK. -/
theorem C8_isr_capture (s : App) (d : SensorData)
    (hst : s.sensor_status = SNSR_STATUS_OK) (hov : s.snsr_buffer_overrun = false) :
    ((ringbuffer_get_write_buffer s.snsr_buffer).2 = 0 →
      SNSR_ISR_HANDLER s d = { s with snsr_buffer_overrun := true } ∧
      (SNSR_ISR_HANDLER s d).sensor_reads = s.sensor_reads ∧
      (SNSR_ISR_HANDLER s d).snsr_buffer = s.snsr_buffer) ∧
    ((ringbuffer_get_write_buffer s.snsr_buffer).2 ≠ 0 →
      (SNSR_ISR_HANDLER s d).sensor_reads = s.sensor_reads + 1 ∧
      (SNSR_ISR_HANDLER s d).sensor_status =
        (sensor_read d (s.snsr_buffer.slots.getD
          (ringbuffer_get_write_buffer s.snsr_buffer).1 [])).1 ∧
      (SNSR_ISR_HANDLER s d).sensor_status = d.status ∧
      (SNSR_ISR_HANDLER s d).snsr_buffer.slots =
        s.snsr_buffer.slots.set (ringbuffer_get_write_buffer s.snsr_buffer).1
          (sensor_read d (s.snsr_buffer.slots.getD
            (ringbuffer_get_write_buffer s.snsr_buffer).1 [])).2 ∧
      (SNSR_ISR_HANDLER s d).snsr_buffer_overrun = false ∧
      (SNSR_ISR_HANDLER s d).snsr_buffer.ridx = s.snsr_buffer.ridx ∧
      (SNSR_ISR_HANDLER s d).snsr_buffer.capacity = s.snsr_buffer.capacity ∧
      ((SNSR_ISR_HANDLER s d).snsr_buffer.widx = s.snsr_buffer.widx + 1 ↔
        d.status = SNSR_STATUS_OK) ∧
      (d.status ≠ SNSR_STATUS_OK →
        (SNSR_ISR_HANDLER s d).snsr_buffer.widx = s.snsr_buffer.widx)) :=
  isr_behaviour s d hst hov

theorem C8_isr_capture_witness :
    (state_full.sensor_status = SNSR_STATUS_OK ∧ state_full.snsr_buffer_overrun = false ∧
      (ringbuffer_get_write_buffer state_full.snsr_buffer).2 = 0 ∧
      SNSR_ISR_HANDLER state_full sample_ok = { state_full with snsr_buffer_overrun := true }) ∧
    (init_state.sensor_status = SNSR_STATUS_OK ∧ init_state.snsr_buffer_overrun = false ∧
      (ringbuffer_get_write_buffer init_state.snsr_buffer).2 ≠ 0 ∧
      (SNSR_ISR_HANDLER init_state sample_ok).sensor_reads = init_state.sensor_reads + 1) :=
  ⟨⟨by decide, by decide, by decide,
      ((C8_isr_capture state_full sample_ok (by decide) (by decide)).1 (by decide)).1⟩,
    ⟨by decide, by decide, by decide,
      ((C8_isr_capture init_state sample_ok (by decide) (by decide)).2 (by decide)).1⟩⟩

/-- C9: an iteration of the main loop that finds the sensor status OK and the
overrun flag set runs the recovery branch, whose statements register
`Null_Handler`, reset the ring buffer, clear the flag and register
`SNSR_ISR_HANDLER` in this order and at no other place.  Whatever sensor
interrupts fire between the statements, the reset executes with `Null_Handler`
registered, the flag still set and the buffer untouched, and right after the
last registration the buffer is reset, the flag is clear, the handler is
`SNSR_ISR_HANDLER` and no sensor read has happened.  The next interrupt that
finds a writable slot and a healthy sensor captures one frame. -/
theorem C9_recovery_order (s : App) (rets : List Int)
    (hst : s.sensor_status = SNSR_STATUS_OK) (hov : s.snsr_buffer_overrun = true) :
    main_loop_iteration s rets = some (false, exec_stmts overrun_recovery s) ∧
    overrun_recovery.drop 7 =
      [Stmt.MIKRO_INT_CallbackRegister Handler.Null_Handler, Stmt.ringbuffer_reset,
       Stmt.overrun_clear, Stmt.MIKRO_INT_CallbackRegister Handler.SNSR_ISR_HANDLER,
       Stmt.tickrate_assign TICK_RATE_SLOW] ∧
    (∀ st ∈ overrun_recovery.take 7,
      st ≠ Stmt.ringbuffer_reset ∧ st ≠ Stmt.overrun_clear ∧
      st ≠ Stmt.MIKRO_INT_CallbackRegister Handler.Null_Handler ∧
      st ≠ Stmt.MIKRO_INT_CallbackRegister Handler.SNSR_ISR_HANDLER) ∧
    (∀ irq : Nat → List SensorData,
      ((irq 8).foldl sensor_interrupt
          (exec_interleaved irq 0 (overrun_recovery.take 8) s)).int_handler =
        Handler.Null_Handler ∧
      ((irq 8).foldl sensor_interrupt
          (exec_interleaved irq 0 (overrun_recovery.take 8) s)).snsr_buffer_overrun = true ∧
      ((irq 8).foldl sensor_interrupt
          (exec_interleaved irq 0 (overrun_recovery.take 8) s)).snsr_buffer = s.snsr_buffer ∧
      exec_interleaved irq 0 (overrun_recovery.take 11) s =
        { s with tickrate := 0, led_status := false,
                 snsr_buffer := ringbuffer_reset s.snsr_buffer,
                 snsr_buffer_overrun := false,
                 int_handler := Handler.SNSR_ISR_HANDLER }) ∧
    exec_stmts overrun_recovery s =
      { s with tickrate := TICK_RATE_SLOW, led_status := false,
               snsr_buffer := ringbuffer_reset s.snsr_buffer,
               snsr_buffer_overrun := false,
               int_handler := Handler.SNSR_ISR_HANDLER } ∧
    (exec_stmts overrun_recovery s).snsr_buffer.widx = 0 ∧
    (exec_stmts overrun_recovery s).snsr_buffer.ridx = 0 ∧
    (exec_stmts overrun_recovery s).sensor_reads = s.sensor_reads ∧
    (∀ d : SensorData, d.status = SNSR_STATUS_OK →
      (ringbuffer_get_write_buffer (exec_stmts overrun_recovery s).snsr_buffer).2 ≠ 0 →
      (sensor_interrupt (exec_stmts overrun_recovery s) d).sensor_reads = s.sensor_reads + 1 ∧
      (sensor_interrupt (exec_stmts overrun_recovery s) d).snsr_buffer.widx = 1 ∧
      (sensor_interrupt (exec_stmts overrun_recovery s) d).sensor_status = SNSR_STATUS_OK ∧
      (sensor_interrupt (exec_stmts overrun_recovery s) d).snsr_buffer_overrun = false) := by
  have hq8 : all_quiet (overrun_recovery.take 8) s := by
    simp only [overrun_recovery, List.take, all_quiet, quiet, exec_stmt, LED_ALL_Off,
      LED_STATUS_On, LED_RED_On, hov, true_or, and_self]
  have hq11 : all_quiet (overrun_recovery.take 11) s := by
    simp only [overrun_recovery, List.take, all_quiet, quiet, exec_stmt, LED_ALL_Off,
      LED_STATUS_On, LED_RED_On, hov, true_or, or_true, and_self]
  have hq : quiet (exec_stmts (overrun_recovery.take 8) s) := Or.inr rfl
  refine ⟨main_loop_overrun s rets hst hov, rfl, by decide, ?_, recovery_result s, rfl, rfl,
    rfl, ?_⟩
  · intro irq
    rw [exec_interleaved_quiet irq _ 0 s hq8, exec_interleaved_quiet irq _ 0 s hq11,
      burst_quiet (irq 8) _ hq]
    exact ⟨rfl, hov, rfl, rfl⟩
  · intro d hd hw
    have h8 := (isr_behaviour (exec_stmts overrun_recovery s) d hst rfl).2 hw
    have e : sensor_interrupt (exec_stmts overrun_recovery s) d =
        SNSR_ISR_HANDLER (exec_stmts overrun_recovery s) d := rfl
    rw [e]
    obtain ⟨r1, _, r3, _, r5, _, _, r8, _⟩ := h8
    exact ⟨r1, r8.mpr hd, by rw [r3, hd], r5⟩

theorem C9_recovery_order_witness :
    state_overrun_2.sensor_status = SNSR_STATUS_OK ∧
    state_overrun_2.snsr_buffer_overrun = true ∧
    main_loop_iteration state_overrun_2 [] =
      some (false, exec_stmts overrun_recovery state_overrun_2) ∧
    (exec_stmts overrun_recovery state_overrun_2).snsr_buffer.widx = 0 ∧
    (exec_stmts overrun_recovery state_overrun_2).snsr_buffer.ridx = 0 ∧
    (exec_stmts overrun_recovery state_overrun_2).sensor_reads =
      state_overrun_2.sensor_reads :=
  ⟨by decide, by decide, (C9_recovery_order state_overrun_2 [] (by decide) (by decide)).1,
    (C9_recovery_order state_overrun_2 [] (by decide) (by decide)).2.2.2.2.2.1,
    (C9_recovery_order state_overrun_2 [] (by decide) (by decide)).2.2.2.2.2.2.1,
    (C9_recovery_order state_overrun_2 [] (by decide) (by decide)).2.2.2.2.2.2.2.1⟩

/-- C10 as stated fails: with class 2 current (rate 100 at its transition) an
overrun recovery ends with `tickrate = TICK_RATE_SLOW = 500`. -/
theorem C10_counterexample :
    state_overrun_2.sensor_status = SNSR_STATUS_OK ∧
    state_overrun_2.snsr_buffer_overrun = true ∧
    state_overrun_2.clsid = 2 ∧ state_overrun_2.tickrate = 100 ∧
    class_tickrate state_overrun_2 2 = 100 ∧
    (main_loop_iteration state_overrun_2 []).map (fun p => (p.1, p.2.clsid, p.2.tickrate)) =
      some (false, 2, 500) ∧
    ¬ (∀ t, main_loop_iteration state_overrun_2 [] = some (false, t) →
        t.tickrate = class_tickrate state_overrun_2 state_overrun_2.clsid) := by
  refine ⟨by decide, by decide, by decide, by decide, by decide, by decide, ?_⟩
  intro h
  have h2 := h _ (main_loop_overrun state_overrun_2 [] (by decide) (by decide))
  revert h2
  decide

/-- C10 amended: for every value of `clsid` at the moment an overrun is handled,
the recovery branch completes with `tickrate = TICK_RATE_SLOW` and the status
LED switched off, and `clsid`, `votehist` and `votecounts` are unchanged by
the recovery. -/
theorem C10_recovery_indicator (s : App) (rets : List Int)
    (hst : s.sensor_status = SNSR_STATUS_OK) (hov : s.snsr_buffer_overrun = true) :
    ∃ t, main_loop_iteration s rets = some (false, t) ∧
      t.tickrate = TICK_RATE_SLOW ∧ t.led_status = false ∧
      t.clsid = s.clsid ∧ t.votehist = s.votehist ∧ t.votecounts = s.votecounts :=
  ⟨_, main_loop_overrun s rets hst hov, rfl, rfl, rfl, rfl, rfl⟩

theorem C10_recovery_indicator_witness :
    state_overrun_2.sensor_status = SNSR_STATUS_OK ∧
    state_overrun_2.snsr_buffer_overrun = true ∧
    ∃ t, main_loop_iteration state_overrun_2 [] = some (false, t) ∧
      t.tickrate = TICK_RATE_SLOW ∧ t.led_status = false ∧
      t.clsid = state_overrun_2.clsid ∧ t.votehist = state_overrun_2.votehist ∧
      t.votecounts = state_overrun_2.votecounts :=
  ⟨by decide, by decide, C10_recovery_indicator state_overrun_2 [] (by decide) (by decide)⟩

/-! ## Lemmas for the reachable vote states -/

theorem hist_zero_le (a b c : Int) : (hist_of a b c).getD 0 0 ≤ 1 := by
  have h := hist_getD a b c 0 (by decide)
  simp only [Nat.cast_zero] at h
  rw [h]
  rcases cnt_cases 0 a with h1 | h1 <;> rcases cnt_cases 0 b with h2 | h2 <;>
  rcases cnt_cases 0 c with h3 | h3 <;>
  rcases seed_count_cases 0 with h4 | h4 | h4 <;> omega

/-- The invariant together with a current class other than 0 is kept by every
verdict in `0..6`. -/
theorem vote_block_nonzero (s : App) (r : Int) (hinv : VoteInv s) (hc : s.clsid ≠ 0)
    (hr0 : 0 ≤ r) (hr1 : r < 7) :
    ∃ t, vote_block s r = some t ∧ VoteInv t ∧ t.clsid ≠ 0 := by
  obtain ⟨u, t, _, ht, hti, _, _, hvc, _, ⟨m, hm⟩, hrule⟩ := vote_block_step s r hinv hr0 hr1
  refine ⟨t, ht, hti, ?_⟩
  have hcl := hrule m hm
  obtain ⟨a, b, c, _, _, _, _, htc, _⟩ := hti
  by_cases hcond : u.votecounts.getD m 0 ≥ (MAJORITY_VOTES : Int) ∧ (m : Int) ≠ s.clsid
  · rw [if_pos hcond] at hcl
    rw [hcl]
    intro hm0
    have hmz : m = 0 := by omega
    subst hmz
    have h1 := hcond.1
    rw [← hvc, htc] at h1
    have h2 := hist_zero_le a b c
    have h3 : ((MAJORITY_VOTES : Nat) : Int) = 2 := rfl
    omega
  · rw [if_neg hcond] at hcl
    rw [hcl]
    exact hc

theorem feed_nonzero (rs : List Int) :
    ∀ s : App, VoteInv s → s.clsid ≠ 0 → (∀ x ∈ rs, 0 ≤ x ∧ x < (NUM_CLASSES : Int)) →
      ∃ t, feed s rs = some t ∧ VoteInv t ∧ t.clsid ≠ 0 := by
  induction rs with
  | nil => exact fun s h hc _ => ⟨s, rfl, h, hc⟩
  | cons r rs ih =>
    intro s hinv hc hrs
    have hr := hrs r (List.mem_cons_self r rs)
    obtain ⟨t, ht, hti, htc⟩ := vote_block_nonzero s r hinv hc hr.1 hr.2
    obtain ⟨w, hw, hwi, hwc⟩ := ih t hti htc (fun x hx => hrs x (List.mem_cons_of_mem r hx))
    refine ⟨w, ?_, hwi, hwc⟩
    simp only [feed, ht, Option.bind_eq_bind, Option.some_bind]
    exact hw

/-- The update of the window and the histogram writes no other variable. -/
theorem vote_update_frame (s u : App) (r : Int) (h : vote_update s r = some u) :
    u = { s with votehist := u.votehist, votecounts := u.votecounts } := by
  unfold vote_update at h
  simp only [Option.bind_eq_bind, Option.bind_eq_some, Option.pure_def, Option.some.injEq] at h
  obtain ⟨_, _, _, _, _, _, _, _, _, _, _, _, _, _, rfl⟩ := h
  rfl

/-- The decision either leaves the state as it is or assigns a class other than
the current one and runs the indicator update. -/
theorem vote_decide_frame (u t : App) (r : Int) (h : vote_decide u r = some t) :
    t = u ∨ (t.clsid ≠ u.clsid ∧ t = indicator_update { u with clsid := t.clsid }) := by
  unfold vote_decide at h
  by_cases hr : r ≠ u.clsid
  · rw [if_pos hr] at h
    cases hs : scan_votes u.votecounts with
    | none =>
      rw [hs] at h
      cases h
    | some p =>
      rw [hs] at h
      simp only [Option.bind_eq_bind, Option.some_bind, Option.pure_def] at h
      by_cases hc : to_unsigned p.1 ≥ MAJORITY_VOTES ∧ p.2 ≠ u.clsid
      · rw [if_pos hc] at h
        cases h
        have i1 := (indicator_update_vote { u with clsid := p.2 }).1
        right
        rw [i1]
        exact ⟨hc.2, rfl⟩
      · rw [if_neg hc] at h
        cases h
        exact Or.inl rfl
  · rw [if_neg hr] at h
    cases h
    exact Or.inl rfl

theorem vote_block_frame (s t : App) (r : Int) (h : vote_block s r = some t) :
    (t.clsid = s.clsid → t = { s with votehist := t.votehist, votecounts := t.votecounts }) ∧
    (t.clsid ≠ s.clsid →
      t = indicator_update
        { s with votehist := t.votehist, votecounts := t.votecounts, clsid := t.clsid }) := by
  unfold vote_block at h
  by_cases hr : 0 ≤ r
  · rw [if_pos hr] at h
    cases hu : vote_update s r with
    | none =>
      rw [hu] at h
      cases h
    | some u =>
      rw [hu] at h
      simp only [Option.bind_eq_bind, Option.some_bind] at h
      have hf := vote_update_frame s u r hu
      have hc : u.clsid = s.clsid := by rw [hf]
      rcases vote_decide_frame u t r h with e | ⟨hne, e⟩
      · subst e
        exact ⟨fun _ => hf, fun hn => absurd hc hn⟩
      · refine ⟨fun he => absurd (he.trans hc.symm) hne, fun _ => ?_⟩
        have i := indicator_update_vote { u with clsid := t.clsid }
        have e2 : t.votehist = u.votehist := by rw [e]; exact i.2.1
        have e3 : t.votecounts = u.votecounts := by rw [e]; exact i.2.2
        rw [e2, e3]
        rw [hf] at e
        exact e
  · rw [if_neg hr] at h
    cases h
    exact ⟨fun _ => rfl, fun hn => absurd rfl hn⟩

theorem vote_inv_of_vote_eq (w s : App) (hw : VoteInv w)
    (hs : s.clsid = w.clsid ∧ s.votehist = w.votehist ∧ s.votecounts = w.votecounts) :
    VoteInv s := by
  obtain ⟨a, b, c, ha, hb, hc, hvh, hvc, h3⟩ := hw
  exact ⟨a, b, c, ha, hb, hc, by rw [hs.2.1, hvh], by rw [hs.2.2, hvc],
    fun h1 h2 => by rw [hs.1]; exact h3 h1 h2⟩

/-- C15: in every program state whose vote variables are those reached from the
initial vote variables by verdicts in `0..6`, whatever `tickrate`, the LED and
the other variables hold, a further verdict in `0..6` is processed, and when
it leaves `clsid` as it was it changes only `votehist` and `votecounts`:
`tickrate` and the LED keep their values; a verdict that changes `clsid` runs
the indicator update of the new class.  In any state at all a classifier
result that leaves `clsid` as it was writes neither `tickrate` nor the LED. -/
theorem C15_edge_triggered (s0 w s : App) (rs : List Int) (r : Int) (h0 : VoteInit s0)
    (hrs : ∀ x ∈ rs, 0 ≤ x ∧ x < (NUM_CLASSES : Int))
    (hw : feed s0 rs = some w)
    (hs : s.clsid = w.clsid ∧ s.votehist = w.votehist ∧ s.votecounts = w.votecounts)
    (hr : 0 ≤ r ∧ r < (NUM_CLASSES : Int)) :
    (∃ t, vote_block s r = some t ∧
      (t.clsid = s.clsid →
        t.tickrate = s.tickrate ∧ t.led_status = s.led_status ∧
        t = { s with votehist := t.votehist, votecounts := t.votecounts }) ∧
      (t.clsid ≠ s.clsid →
        t = indicator_update
          { s with votehist := t.votehist, votecounts := t.votecounts, clsid := t.clsid })) ∧
    (∀ (v t : App) (ret : Int), vote_block v ret = some t → t.clsid = v.clsid →
      t.tickrate = v.tickrate ∧ t.led_status = v.led_status ∧
      t = { v with votehist := t.votehist, votecounts := t.votecounts }) := by
  have hall : ∀ (v t : App) (ret : Int), vote_block v ret = some t → t.clsid = v.clsid →
      t.tickrate = v.tickrate ∧ t.led_status = v.led_status ∧
      t = { v with votehist := t.votehist, votecounts := t.votecounts } := by
    intro v t ret h hc
    have e := (vote_block_frame v t ret h).1 hc
    exact ⟨by rw [e], by rw [e], e⟩
  refine ⟨?_, hall⟩
  obtain ⟨x, hx, hxi⟩ := feed_inv rs s0 (init_inv s0 h0) hrs
  rw [hw] at hx
  cases hx
  have hinv : VoteInv s := vote_inv_of_vote_eq w s hxi hs
  obtain ⟨_, t, _, ht, _⟩ := vote_block_step s r hinv hr.1 hr.2
  exact ⟨t, ht, fun hc => hall s t r ht hc, (vote_block_frame s t r ht).2⟩

theorem C15_edge_triggered_witness :
    VoteInit init_state ∧ (∀ x ∈ [(2 : Int), 2], 0 ≤ x ∧ x < (NUM_CLASSES : Int)) ∧
    feed init_state [2, 2] = some state_2_2 ∧
    (state_recovered.clsid = state_2_2.clsid ∧ state_recovered.votehist = state_2_2.votehist ∧
      state_recovered.votecounts = state_2_2.votecounts) ∧
    (0 ≤ (3 : Int) ∧ (3 : Int) < (NUM_CLASSES : Int)) ∧
    state_recovered.tickrate = 500 ∧ class_tickrate state_recovered 2 = 100 ∧
    (vote_block state_recovered 3).map (fun t => (t.clsid, t.tickrate, t.led_status)) =
      some (2, 500, false) ∧
    (∃ t, vote_block state_recovered 3 = some t ∧
      (t.clsid = state_recovered.clsid →
        t.tickrate = state_recovered.tickrate ∧ t.led_status = state_recovered.led_status ∧
        t = { state_recovered with votehist := t.votehist, votecounts := t.votecounts }) ∧
      (t.clsid ≠ state_recovered.clsid →
        t = indicator_update
          { state_recovered with votehist := t.votehist, votecounts := t.votecounts,
                                 clsid := t.clsid })) :=
  ⟨⟨rfl, rfl, rfl⟩, by decide, by decide, by decide, by decide, by decide, by decide,
    by decide,
    (C15_edge_triggered init_state state_2_2 state_recovered [2, 2] 3 ⟨rfl, rfl, rfl⟩
      (by decide) (by decide) (by decide) (by decide)).1⟩

/-- C16: after every sequence of verdicts in `0..6` from the initial vote
variables the count of class 0 is at most 1, below `MAJORITY_VOTES`, and the
current class is not 0; this holds in particular for `n` verdicts 0 in a row. -/
theorem C16_unknown_never_current (s0 : App) (rs : List Int) (h0 : VoteInit s0)
    (hrs : ∀ x ∈ rs, 0 ≤ x ∧ x < (NUM_CLASSES : Int)) :
    (∃ t, feed s0 rs = some t ∧ t.votecounts.getD 0 0 ≤ 1 ∧
      t.votecounts.getD 0 0 < (MAJORITY_VOTES : Int) ∧ t.clsid ≠ 0) ∧
    (∀ n : Nat, ∃ t, feed s0 (List.replicate n 0) = some t ∧ t.clsid ≠ 0) := by
  have hinv := init_inv s0 h0
  have hc : s0.clsid ≠ 0 := by
    rw [h0.1]
    decide
  constructor
  · obtain ⟨t, ht, hti, htc⟩ := feed_nonzero rs s0 hinv hc hrs
    obtain ⟨a, b, c, _, _, _, _, hvc, _⟩ := hti
    have h1 := hist_zero_le a b c
    have h3 : ((MAJORITY_VOTES : Nat) : Int) = 2 := rfl
    refine ⟨t, ht, ?_, ?_, htc⟩
    · rw [hvc]
      exact h1
    · rw [hvc, h3]
      omega
  · intro n
    obtain ⟨t, ht, _, htc⟩ := feed_nonzero (List.replicate n 0) s0 hinv hc
      (fun x hx => by
        rw [List.eq_of_mem_replicate hx]
        decide)
    exact ⟨t, ht, htc⟩

theorem C16_unknown_never_current_witness :
    VoteInit init_state ∧ (∀ x ∈ [(0 : Int), 0, 0, 0, 0], 0 ≤ x ∧ x < (NUM_CLASSES : Int)) ∧
    ((∃ t, feed init_state [0, 0, 0, 0, 0] = some t ∧ t.votecounts.getD 0 0 ≤ 1 ∧
      t.votecounts.getD 0 0 < (MAJORITY_VOTES : Int) ∧ t.clsid ≠ 0) ∧
    (∀ n : Nat, ∃ t, feed init_state (List.replicate n 0) = some t ∧ t.clsid ≠ 0)) :=
  ⟨⟨rfl, rfl, rfl⟩, by decide,
    C16_unknown_never_current init_state [0, 0, 0, 0, 0] ⟨rfl, rfl, rfl⟩ (by decide)⟩

/-- C17: when every non-negative classifier result is below `NUM_CLASSES`, every
stream of results from the initial vote variables is processed without an
out-of-bounds access (the model returns a state), the window keeps
`NUM_VOTES` entries in `0..6` and the histogram keeps `NUM_CLASSES` entries; a
verdict outside the classes does take the out-of-bounds branch of the model. -/
theorem C17_accesses_in_bounds (s0 : App) (rs : List Int) (h0 : VoteInit s0)
    (hrs : ∀ x ∈ rs, 0 ≤ x → x < (NUM_CLASSES : Int)) :
    (∃ t, feed s0 rs = some t ∧ t.votehist.length = NUM_VOTES ∧
      t.votecounts.length = NUM_CLASSES ∧
      (∀ h ∈ t.votehist, 0 ≤ h ∧ h < (NUM_CLASSES : Int)) ∧
      (∃ h c, arr_get t.votehist 0 = some h ∧ arr_get t.votecounts h = some c)) ∧
    vote_block s0 (NUM_CLASSES : Int) = none := by
  constructor
  · have hf : ∀ x ∈ rs.filter (fun r => decide (0 ≤ r)), 0 ≤ x ∧ x < (NUM_CLASSES : Int) := by
      intro x hx
      rw [List.mem_filter] at hx
      have hx0 : 0 ≤ x := by simpa using hx.2
      exact ⟨hx0, hrs x hx.1 hx0⟩
    obtain ⟨t, ht, a, b, c, ha, hb, hc, hvh, hvc, _⟩ := feed_inv _ s0 (init_inv s0 h0) hf
    rw [← feed_filter rs s0] at ht
    refine ⟨t, ht, by rw [hvh]; rfl, by rw [hvc]; rfl, ?_, ?_⟩
    · intro h hh
      rw [hvh] at hh
      simp only [List.mem_cons, List.mem_singleton, List.not_mem_nil, or_false] at hh
      rcases hh with h1 | h1 | h1 <;> subst h1 <;> assumption
    · obtain ⟨x, hx, _⟩ := hist_evict (cnt 0 a + cnt 0 b + cnt 0 c - 2)
        (cnt 1 a + cnt 1 b + cnt 1 c - 1) (cnt 2 a + cnt 2 b + cnt 2 c)
        (cnt 3 a + cnt 3 b + cnt 3 c) (cnt 4 a + cnt 4 b + cnt 4 c)
        (cnt 5 a + cnt 5 b + cnt 5 c) (cnt 6 a + cnt 6 b + cnt 6 c) a ha.1 ha.2
      exact ⟨a, x, by rw [hvh]; rfl, by rw [hvc]; exact hx⟩
  · obtain ⟨tr, led, st, rb, ov, hd, c, vh, vc, n⟩ := s0
    obtain ⟨h1, h2, h3⟩ := h0
    simp only at h1 h2 h3
    subst h1 h2 h3
    rfl

theorem C17_accesses_in_bounds_witness :
    VoteInit init_state ∧
    (∀ x ∈ [(-1 : Int), 6, 0, -3, 6, 6], 0 ≤ x → x < (NUM_CLASSES : Int)) ∧
    ((∃ t, feed init_state [-1, 6, 0, -3, 6, 6] = some t ∧ t.votehist.length = NUM_VOTES ∧
      t.votecounts.length = NUM_CLASSES ∧
      (∀ h ∈ t.votehist, 0 ≤ h ∧ h < (NUM_CLASSES : Int)) ∧
      (∃ h c, arr_get t.votehist 0 = some h ∧ arr_get t.votecounts h = some c)) ∧
    vote_block init_state (NUM_CLASSES : Int) = none) :=
  ⟨⟨rfl, rfl, rfl⟩, by decide,
    C17_accesses_in_bounds init_state [-1, 6, 0, -3, 6, 6] ⟨rfl, rfl, rfl⟩ (by decide)⟩

/-! ## Lemmas on the initialisation -/

theorem app_init_ok (o : InitOutcome) (s : App) (h : init_ok o) :
    (app_init o s).app_failed = 0 ∧
    (app_init o s).registered = [Handler.SNSR_ISR_HANDLER] ∧
    (app_init o s).state.int_handler = Handler.SNSR_ISR_HANDLER ∧
    (app_init o s).state.tickrate = TICK_RATE_SLOW ∧
    (app_init o s).state.sensor_status = SNSR_STATUS_OK := by
  obtain ⟨h1, h2, h3, h4, h5⟩ := h
  simp [app_init, ringbuffer_init, bmi160_sensor_init, bmi160_sensor_set_config,
    SNSR_STATUS_OK, h1, h2, h3, h4, h5, exec_stmts, exec_stmt, LED_ALL_Off, LED_STATUS_On]

theorem app_init_fail (o : InitOutcome) (s : App) (h : ¬ init_ok o) :
    (app_init o s).app_failed = 1 ∧ (app_init o s).registered = [] ∧
    (app_init o s).state.int_handler = s.int_handler ∧
    (app_init o s).state.tickrate = s.tickrate ∧
    (app_init o s).state.led_status = s.led_status := by
  unfold init_ok at h
  by_cases h1 : o.rb_snsr = 0
  · by_cases h2 : o.rb_uart = 0
    · by_cases h3 : o.bmi160_init = BMI160_OK
      · by_cases h4 : o.set_sens_conf = BMI160_OK
        · have h5 : ¬ o.set_int_config = BMI160_OK := fun h5 => h ⟨h1, h2, h3, h4, h5⟩
          simp [app_init, ringbuffer_init, bmi160_sensor_init, bmi160_sensor_set_config,
            SNSR_STATUS_OK, h1, h2, h3, h4, h5]
        · simp [app_init, ringbuffer_init, bmi160_sensor_init, bmi160_sensor_set_config,
            SNSR_STATUS_OK, h1, h2, h3, h4]
      · simp [app_init, ringbuffer_init, bmi160_sensor_init, SNSR_STATUS_OK, h1, h2, h3]
    · simp [app_init, ringbuffer_init, h1, h2]
  · simp [app_init, ringbuffer_init, h1]

/-- C11: the init routine ends with `app_failed = 0` exactly when all steps
succeed, and it registers `SNSR_ISR_HANDLER` exactly then.  When a step fails
it registers no handler and leaves the interrupt handler as it was, the main
loop is not entered (no iteration is started, whatever the inputs), and the
program halts with `tickrate = 0`. -/
theorem C11_init_gate (o : InitOutcome) (s : App) :
    ((app_init o s).app_failed = 0 ↔ init_ok o) ∧
    (Handler.SNSR_ISR_HANDLER ∈ (app_init o s).registered ↔ init_ok o) ∧
    (init_ok o →
      (app_init o s).registered = [Handler.SNSR_ISR_HANDLER] ∧
      (app_init o s).state.int_handler = Handler.SNSR_ISR_HANDLER) ∧
    (¬ init_ok o →
      (app_init o s).app_failed = 1 ∧ (app_init o s).registered = [] ∧
      (app_init o s).state.int_handler = s.int_handler ∧
      ∀ inputs : List (List SensorData × List Int),
        ∃ t, main o inputs s = some (RunResult.halted t 0) ∧ t.tickrate = 0 ∧
          t.led_status = false ∧ t.int_handler = s.int_handler) := by
  refine ⟨?_, ?_, ?_, ?_⟩
  · constructor
    · intro h
      by_contra hn
      rw [(app_init_fail o s hn).1] at h
      exact absurd h (by decide)
    · exact fun h => (app_init_ok o s h).1
  · constructor
    · intro h
      by_contra hn
      rw [(app_init_fail o s hn).2.1] at h
      exact absurd h (List.not_mem_nil _)
    · intro h
      rw [(app_init_ok o s h).2.1]
      exact List.mem_singleton_self _
  · exact fun h => ⟨(app_init_ok o s h).2.1, (app_init_ok o s h).2.2.1⟩
  · intro hn
    obtain ⟨f1, f2, f3, _, _⟩ := app_init_fail o s hn
    refine ⟨f1, f2, f3, ?_⟩
    intro inputs
    have hf : (app_init o s).app_failed ≠ 0 := by
      rw [f1]
      decide
    refine ⟨fatal_halt { (app_init o s).state with
        clsid := 1, votehist := [1, 0, 0], votecounts := [0, 0, 0, 0, 0, 0, 0] }, ?_, rfl, rfl, f3⟩
    simp only [main, hf, ne_eq, not_false_eq_true, if_true]

theorem C11_init_gate_witness :
    ¬ init_ok outcome_bad_config ∧ init_ok outcome_ok ∧
    (app_init outcome_bad_config boot_state).app_failed = 1 ∧
    (app_init outcome_bad_config boot_state).registered = [] ∧
    (app_init outcome_ok boot_state).registered = [Handler.SNSR_ISR_HANDLER] ∧
    (∃ t, main outcome_bad_config [([sample_ok], [2])] boot_state =
        some (RunResult.halted t 0) ∧ t.tickrate = 0 ∧
      t.led_status = false ∧ t.int_handler = boot_state.int_handler) :=
  have hbad : ¬ init_ok outcome_bad_config := by
    unfold init_ok
    decide
  have hok : init_ok outcome_ok := by
    unfold init_ok
    decide
  ⟨hbad, hok, ((C11_init_gate outcome_bad_config boot_state).2.2.2 hbad).1,
    ((C11_init_gate outcome_bad_config boot_state).2.2.2 hbad).2.1,
    ((C11_init_gate outcome_ok boot_state).2.2.1 hok).1,
    ((C11_init_gate outcome_bad_config boot_state).2.2.2 hbad).2.2.2 [([sample_ok], [2])]⟩

/-! ## Lemmas on the time base -/

/-- While the product and the sum stay below `2 ^ 32` the microsecond value is
the millisecond value times 1000 plus the timer reading; in general it is
that number reduced modulo `2 ^ 32`. -/
theorem read_timer_us_mod (t r : Nat) (ht : t < UINT32_MOD) (hr : r < UINT16_MOD) :
    read_timer_us t r = (read_timer_ms t * 1000 + r) % UINT32_MOD ∧
    (t * 1000 + r < UINT32_MOD → read_timer_us t r = read_timer_ms t * 1000 + r) := by
  have h16 : UINT16_MOD = 65536 := by norm_num [UINT16_MOD]
  have h32 : UINT32_MOD = 4294967296 := by norm_num [UINT32_MOD]
  have h64 : UINT64_MOD = 18446744073709551616 := by norm_num [UINT64_MOD]
  unfold read_timer_us read_timer_ms
  rw [h32, h64]
  rw [h32] at ht
  rw [h16] at hr
  have e1 : t % 4294967296 = t := Nat.mod_eq_of_lt ht
  have e2 : r % 4294967296 = r := Nat.mod_eq_of_lt (by omega)
  have e3 : t % 18446744073709551616 = t := Nat.mod_eq_of_lt (by omega)
  rw [e1, e2, e3]
  constructor
  · omega
  · intro h
    have e4 : t * 1000 % 4294967296 = t * 1000 := Nat.mod_eq_of_lt (by omega)
    have e5 : (t * 1000 + r) % 4294967296 = t * 1000 + r := Nat.mod_eq_of_lt h
    rw [e4, e5]
    omega

/-- C13 fails on the code: with `tickcounter = 4294968` and a timer reading of 0
the function `read_timer_us` returns 704, not `4294968 * 1000`, because the
product is taken in `uint32_t`; the value is below the one returned for
`tickcounter = 4294967`, so the result decreases while the counter grows. -/
theorem C13_read_timer_us_wraps :
    read_timer_us 4294968 0 = 704 ∧
    read_timer_ms 4294968 * 1000 + 0 = 4294968000 ∧
    read_timer_us 4294968 0 ≠ read_timer_ms 4294968 * 1000 + 0 ∧
    read_timer_us 4294967 0 = 4294967000 ∧
    read_timer_ms 4294967 ≤ read_timer_ms 4294968 ∧
    read_timer_us 4294968 0 < read_timer_us 4294967 0 := by
  decide

/-! ## Lemmas on the indicator patterns -/

theorem class_pattern_values (s : App) :
    class_pattern s 0 = (50, false) ∧ class_pattern s 1 = (0, true) ∧
    class_pattern s 2 = (100, false) ∧ class_pattern s 3 = (1000, false) ∧
    class_pattern s 4 = (600, false) ∧ class_pattern s 5 = (300, false) ∧
    class_pattern s 6 = (50, false) :=
  ⟨rfl, rfl, rfl, rfl, rfl, rfl, rfl⟩

/-- C14 as stated fails: the class-transition code leaves the same pattern,
rate 50 with the LED off, for the classes 0 and 6. -/
theorem C14_counterexample :
    (0 : Int) ≠ 6 ∧ class_pattern init_state 0 = (50, false) ∧
    class_pattern init_state 6 = (50, false) ∧
    ¬ (class_pattern init_state 0 ≠ class_pattern init_state 6) := by
  decide

/-- C14 amended: two different class ids in `0..6` other than the pair 0 and 6
get different patterns of rate and LED from the class-transition code, and
the classes 0 and 6 get the same pattern. -/
theorem C14_patterns_distinct (s : App) (a b : Int)
    (ha : 0 ≤ a ∧ a < (NUM_CLASSES : Int)) (hb : 0 ≤ b ∧ b < (NUM_CLASSES : Int))
    (hab : a ≠ b) (hpair : ¬ ((a = 0 ∧ b = 6) ∨ (a = 6 ∧ b = 0))) :
    class_pattern s a ≠ class_pattern s b ∧ class_pattern s 0 = class_pattern s 6 := by
  obtain ⟨e0, e1, e2, e3, e4, e5, e6⟩ := class_pattern_values s
  refine ⟨?_, by rw [e0, e6]⟩
  rcases class_cases a ha.1 ha.2 with h | h | h | h | h | h | h <;>
  rcases class_cases b hb.1 hb.2 with k | k | k | k | k | k | k <;>
  subst h <;> subst k <;>
  first
    | (simp only [e0, e1, e2, e3, e4, e5, e6]; decide)
    | (exfalso; revert hab hpair; decide)

theorem C14_patterns_distinct_witness :
    (0 ≤ (2 : Int) ∧ (2 : Int) < (NUM_CLASSES : Int)) ∧
    (0 ≤ (6 : Int) ∧ (6 : Int) < (NUM_CLASSES : Int)) ∧ (2 : Int) ≠ 6 ∧
    ¬ (((2 : Int) = 0 ∧ (6 : Int) = 6) ∨ ((2 : Int) = 6 ∧ (6 : Int) = 0)) ∧
    (class_pattern init_state 2 ≠ class_pattern init_state 6 ∧
      class_pattern init_state 0 = class_pattern init_state 6) :=
  ⟨by decide, by decide, by decide, by decide,
    C14_patterns_distinct init_state 2 6 (by decide) (by decide) (by decide) (by decide)⟩

/-! ## Lemmas on the ticker -/

theorem uint_moduli : UINT16_MOD = 65536 ∧ UINT32_MOD = 4294967296 := by
  constructor <;> norm_num [UINT16_MOD, UINT32_MOD]

theorem ticks_succ (n : Nat) : ∀ s : Ticker, ticks (n + 1) s = Ticker_Callback (ticks n s) := by
  induction n with
  | zero => exact fun _ => rfl
  | succ n ih =>
    intro s
    show ticks (n + 1) (Ticker_Callback s) = _
    rw [ih]
    rfl

/-- A callback at rate zero, or with the divider above the rate, resets the divider. -/
theorem tick_idle (s : Ticker) (h : s.tickrate = 0 ∨ s.mstick > s.tickrate) :
    (Ticker_Callback s).mstick = 0 ∧ (Ticker_Callback s).tickrate = s.tickrate ∧
      (Ticker_Callback s).toggles = s.toggles := by
  unfold Ticker_Callback
  dsimp only
  rw [if_pos h]
  exact ⟨rfl, rfl, rfl⟩

/-- A callback that does not reach the rate counts the divider up by one. -/
theorem tick_count (s : Ticker) (h1 : s.tickrate < UINT16_MOD) (hm : s.mstick + 1 < s.tickrate) :
    (Ticker_Callback s).mstick = s.mstick + 1 ∧ (Ticker_Callback s).tickrate = s.tickrate ∧
      (Ticker_Callback s).toggles = s.toggles := by
  obtain ⟨h16, h32⟩ := uint_moduli
  rw [h16] at h1
  have hmod : (s.mstick + 1) % UINT32_MOD = s.mstick + 1 := by
    rw [h32]
    exact Nat.mod_eq_of_lt (by omega)
  unfold Ticker_Callback
  dsimp only
  rw [if_neg (by omega), hmod, if_neg (by omega)]
  exact ⟨rfl, rfl, rfl⟩

/-- A callback that reaches the rate toggles the LED and resets the divider. -/
theorem tick_toggle (s : Ticker) (h1 : s.tickrate < UINT16_MOD) (hm : s.mstick + 1 = s.tickrate) :
    (Ticker_Callback s).mstick = 0 ∧ (Ticker_Callback s).tickrate = s.tickrate ∧
      (Ticker_Callback s).toggles = s.toggles + 1 := by
  obtain ⟨h16, h32⟩ := uint_moduli
  rw [h16] at h1
  have hmod : (s.mstick + 1) % UINT32_MOD = s.mstick + 1 := by
    rw [h32]
    exact Nat.mod_eq_of_lt (by omega)
  unfold Ticker_Callback
  dsimp only
  rw [if_neg (by omega), hmod, if_pos hm]
  exact ⟨rfl, rfl, rfl⟩

theorem ticks_count_up (k : Nat) :
    ∀ s : Ticker, s.tickrate < UINT16_MOD → s.mstick + k < s.tickrate →
      (ticks k s).mstick = s.mstick + k ∧ (ticks k s).tickrate = s.tickrate ∧
        (ticks k s).toggles = s.toggles := by
  induction k with
  | zero => exact fun _ _ _ => ⟨rfl, rfl, rfl⟩
  | succ k ih =>
    intro s h1 hm
    obtain ⟨c1, c2, c3⟩ := tick_count s h1 (by omega)
    obtain ⟨i1, i2, i3⟩ := ih (Ticker_Callback s) (by rw [c2]; exact h1)
      (by rw [c1, c2]; omega)
    show (ticks k (Ticker_Callback s)).mstick = _ ∧ (ticks k (Ticker_Callback s)).tickrate = _ ∧
      (ticks k (Ticker_Callback s)).toggles = _
    rw [i1, i2, i3, c1, c2, c3]
    exact ⟨by omega, rfl, rfl⟩

/-- From a divider value `m` below the rate `T` the LED toggles first on the
callback number `T - m`. -/
theorem first_toggle (s : Ticker) (h1 : s.tickrate < UINT16_MOD) (hm : s.mstick < s.tickrate) :
    (∀ k, k < s.tickrate - s.mstick → (ticks k s).toggles = s.toggles) ∧
    (ticks (s.tickrate - s.mstick) s).toggles = s.toggles + 1 ∧
    (ticks (s.tickrate - s.mstick) s).mstick = 0 := by
  constructor
  · intro k hk
    exact (ticks_count_up k s h1 (by omega)).2.2
  · obtain ⟨c1, c2, c3⟩ := ticks_count_up (s.tickrate - s.mstick - 1) s h1 (by omega)
    have hk : s.tickrate - s.mstick = (s.tickrate - s.mstick - 1) + 1 := by omega
    rw [hk, ticks_succ]
    obtain ⟨t1, _, t3⟩ := tick_toggle (ticks (s.tickrate - s.mstick - 1) s)
      (by rw [c2]; exact h1) (by rw [c1, c2]; omega)
    rw [t1, t3, c3]
    exact ⟨rfl, rfl⟩

theorem ticks_idle (n : Nat) :
    ∀ s : Ticker, s.tickrate = 0 →
      (ticks n s).tickrate = 0 ∧ (ticks n s).toggles = s.toggles ∧
        (0 < n → (ticks n s).mstick = 0) ∧ (n = 0 → (ticks n s).mstick = s.mstick) := by
  induction n with
  | zero => exact fun _ h => ⟨h, rfl, fun h0 => absurd h0 (by decide), fun _ => rfl⟩
  | succ n ih =>
    intro s h
    obtain ⟨c1, c2, c3⟩ := tick_idle s (Or.inl h)
    obtain ⟨i1, i2, i3, i4⟩ := ih (Ticker_Callback s) (by rw [c2]; exact h)
    show (ticks n (Ticker_Callback s)).tickrate = 0 ∧
      (ticks n (Ticker_Callback s)).toggles = s.toggles ∧
      (0 < n + 1 → (ticks n (Ticker_Callback s)).mstick = 0) ∧
      (n + 1 = 0 → (ticks n (Ticker_Callback s)).mstick = s.mstick)
    refine ⟨i1, by rw [i2, c3], fun _ => ?_, fun h0 => absurd h0 (by omega)⟩
    rcases Nat.eq_zero_or_pos n with hz | hp
    · rw [i4 hz, c1]
    · exact i3 hp

/-- The divider after the writes of a class transition: zero when a callback
fell between the two writes of `tickrate`, else the value it had. -/
theorem rate_change_divider (s : Ticker) (rate b1 b2 : Nat) (h1 : rate < UINT16_MOD) :
    (rate_change rate b1 b2 s).tickrate = rate ∧
    (0 < b1 + b2 → (rate_change rate b1 b2 s).mstick = 0) ∧
    (b1 + b2 = 0 → (rate_change rate b1 b2 s).mstick = s.mstick) := by
  obtain ⟨h16, _⟩ := uint_moduli
  have hr : rate % UINT16_MOD = rate := Nat.mod_eq_of_lt h1
  obtain ⟨a1, _, a3, a4⟩ := ticks_idle b1 { s with tickrate := 0 } rfl
  obtain ⟨c1, _, c3, c4⟩ := ticks_idle b2
    { ticks b1 { s with tickrate := 0 } with led_status := false } a1
  refine ⟨hr, ?_, ?_⟩
  · intro hb
    show (ticks b2 { ticks b1 { s with tickrate := 0 } with led_status := false }).mstick = 0
    rcases Nat.eq_zero_or_pos b2 with hz | hp
    · rw [c4 hz]
      exact a3 (by omega)
    · exact c3 hp
  · intro hb
    show (ticks b2 { ticks b1 { s with tickrate := 0 } with led_status := false }).mstick = _
    rw [c4 (by omega)]
    exact a4 (by omega)

set_option maxRecDepth 20000 in
/-- C12 as stated fails: with the divider at 40 in a cycle of rate 500, a change
to rate 50 without a callback between the two writes of `tickrate` keeps the
divider at 40, and the LED toggles on the 10th callback after the change. -/
theorem C12_counterexample :
    ticker_mid_cycle.tickrate = 500 ∧ ticker_mid_cycle.mstick = 40 ∧
    (rate_change 50 0 0 ticker_mid_cycle).tickrate = 50 ∧
    (rate_change 50 0 0 ticker_mid_cycle).mstick = 40 ∧
    (ticks 10 (rate_change 50 0 0 ticker_mid_cycle)).toggles =
      (rate_change 50 0 0 ticker_mid_cycle).toggles + 1 ∧
    ¬ (∀ k, k < 50 →
        (ticks k (rate_change 50 0 0 ticker_mid_cycle)).toggles =
          (rate_change 50 0 0 ticker_mid_cycle).toggles) := by
  refine ⟨rfl, rfl, rfl, rfl, rfl, ?_⟩
  intro h
  have h10 := h 10 (by decide)
  have h11 : (ticks 10 (rate_change 50 0 0 ticker_mid_cycle)).toggles =
      (rate_change 50 0 0 ticker_mid_cycle).toggles + 1 := rfl
  rw [h11] at h10
  exact absurd h10 (Nat.succ_ne_self _)

/-- A callback with the divider equal to a non-zero rate counts it past the rate. -/
theorem tick_pass (s : Ticker) (h0 : 0 < s.tickrate) (h1 : s.tickrate < UINT16_MOD)
    (hm : s.mstick = s.tickrate) :
    (Ticker_Callback s).mstick = s.tickrate + 1 ∧ (Ticker_Callback s).tickrate = s.tickrate ∧
      (Ticker_Callback s).toggles = s.toggles := by
  obtain ⟨h16, h32⟩ := uint_moduli
  rw [h16] at h1
  have hmod : (s.mstick + 1) % UINT32_MOD = s.mstick + 1 := by
    rw [h32]
    exact Nat.mod_eq_of_lt (by omega)
  unfold Ticker_Callback
  dsimp only
  rw [if_neg (by omega), hmod, if_neg (by omega)]
  exact ⟨by rw [hm], rfl, rfl⟩

/-- From a divider of zero the LED toggles first on the callback number `T`. -/
theorem fresh_cycle (s : Ticker) (h0 : 0 < s.tickrate) (h1 : s.tickrate < UINT16_MOD)
    (hm : s.mstick = 0) :
    (∀ k, k < s.tickrate → (ticks k s).toggles = s.toggles) ∧
    (ticks s.tickrate s).toggles = s.toggles + 1 := by
  obtain ⟨f1, f2, _⟩ := first_toggle s h1 (by rw [hm]; exact h0)
  rw [hm] at f1 f2
  exact ⟨f1, f2⟩

/-- From a divider above the rate `T` the first callback resets it without a
toggle and the LED toggles first on the callback number `T + 1`. -/
theorem stale_above (s : Ticker) (h0 : 0 < s.tickrate) (h1 : s.tickrate < UINT16_MOD)
    (hm : s.tickrate < s.mstick) :
    (∀ k, k < s.tickrate + 1 → (ticks k s).toggles = s.toggles) ∧
    (ticks (s.tickrate + 1) s).toggles = s.toggles + 1 := by
  obtain ⟨c1, c2, c3⟩ := tick_idle s (Or.inr hm)
  obtain ⟨f1, f2⟩ := fresh_cycle (Ticker_Callback s) (by rw [c2]; exact h0)
    (by rw [c2]; exact h1) c1
  rw [c2, c3] at f1 f2
  constructor
  · intro k hk
    cases k with
    | zero => rfl
    | succ j => exact f1 j (by omega)
  · exact f2

/-- From a divider equal to the rate `T` the first callback counts it past the
rate, the second resets it, and the LED toggles first on the callback number
`T + 2`. -/
theorem stale_equal (s : Ticker) (h0 : 0 < s.tickrate) (h1 : s.tickrate < UINT16_MOD)
    (hm : s.mstick = s.tickrate) :
    (∀ k, k < s.tickrate + 2 → (ticks k s).toggles = s.toggles) ∧
    (ticks (s.tickrate + 2) s).toggles = s.toggles + 1 := by
  obtain ⟨c1, c2, c3⟩ := tick_pass s h0 h1 hm
  obtain ⟨a1, a2⟩ := stale_above (Ticker_Callback s) (by rw [c2]; exact h0)
    (by rw [c2]; exact h1) (by rw [c1, c2]; omega)
  rw [c2, c3] at a1 a2
  constructor
  · intro k hk
    cases k with
    | zero => rfl
    | succ j => exact a1 j (by omega)
  · exact a2

/-- C12 amended: after the main context changed `tickrate` to a non-zero value
`T`, the divider is zero when a `Ticker_Callback` fell between the write
`tickrate = 0` and the write `tickrate = T` or when it was zero before, and
then the LED toggles first on the `T`-th callback after the change.  Without
a callback between the writes the divider keeps its value `m`, whatever it
is: for `m < T` the LED toggles first on the callback number `T - m`, for
`m > T` on the callback number `T + 1`, and for `m = T` on the callback
number `T + 2`. -/
theorem C12_rate_change (s : Ticker) (T b1 b2 : Nat) (hT0 : 0 < T) (hT1 : T < UINT16_MOD) :
    (rate_change T b1 b2 s).tickrate = T ∧
    ((0 < b1 + b2 ∨ s.mstick = 0) →
      (rate_change T b1 b2 s).mstick = 0 ∧
      (∀ k, k < T →
        (ticks k (rate_change T b1 b2 s)).toggles = (rate_change T b1 b2 s).toggles) ∧
      (ticks T (rate_change T b1 b2 s)).toggles = (rate_change T b1 b2 s).toggles + 1) ∧
    (b1 + b2 = 0 →
      (rate_change T b1 b2 s).mstick = s.mstick ∧
      (s.mstick < T →
        (∀ k, k < T - s.mstick →
          (ticks k (rate_change T b1 b2 s)).toggles = (rate_change T b1 b2 s).toggles) ∧
        (ticks (T - s.mstick) (rate_change T b1 b2 s)).toggles =
          (rate_change T b1 b2 s).toggles + 1) ∧
      (T < s.mstick →
        (∀ k, k < T + 1 →
          (ticks k (rate_change T b1 b2 s)).toggles = (rate_change T b1 b2 s).toggles) ∧
        (ticks (T + 1) (rate_change T b1 b2 s)).toggles =
          (rate_change T b1 b2 s).toggles + 1) ∧
      (s.mstick = T →
        (∀ k, k < T + 2 →
          (ticks k (rate_change T b1 b2 s)).toggles = (rate_change T b1 b2 s).toggles) ∧
        (ticks (T + 2) (rate_change T b1 b2 s)).toggles =
          (rate_change T b1 b2 s).toggles + 1)) := by
  obtain ⟨r1, r2, r3⟩ := rate_change_divider s T b1 b2 hT1
  have hu0 : 0 < (rate_change T b1 b2 s).tickrate := by rw [r1]; exact hT0
  have hu1 : (rate_change T b1 b2 s).tickrate < UINT16_MOD := by rw [r1]; exact hT1
  refine ⟨r1, ?_, ?_⟩
  · intro h
    have hm : (rate_change T b1 b2 s).mstick = 0 := by
      rcases Nat.eq_zero_or_pos (b1 + b2) with hz | hp
      · rw [r3 hz]
        rcases h with h | h
        · omega
        · exact h
      · exact r2 hp
    obtain ⟨f1, f2⟩ := fresh_cycle (rate_change T b1 b2 s) hu0 hu1 hm
    rw [r1] at f1 f2
    exact ⟨hm, f1, f2⟩
  · intro hb
    have hm2 := r3 hb
    refine ⟨hm2, ?_, ?_, ?_⟩
    · intro hm
      obtain ⟨f1, f2, _⟩ := first_toggle (rate_change T b1 b2 s) hu1 (by rw [r1, hm2]; exact hm)
      rw [r1, hm2] at f1 f2
      exact ⟨f1, f2⟩
    · intro hm
      obtain ⟨f1, f2⟩ := stale_above (rate_change T b1 b2 s) hu0 hu1 (by rw [r1, hm2]; exact hm)
      rw [r1] at f1 f2
      exact ⟨f1, f2⟩
    · intro hm
      obtain ⟨f1, f2⟩ := stale_equal (rate_change T b1 b2 s) hu0 hu1 (by rw [r1, hm2]; exact hm)
      rw [r1] at f1 f2
      exact ⟨f1, f2⟩

set_option maxRecDepth 20000 in
theorem C12_rate_change_witness :
    0 < 50 ∧ 50 < UINT16_MOD ∧ ticker_mid_cycle.mstick = 40 ∧
    (rate_change 50 1 0 ticker_mid_cycle).tickrate = 50 ∧
    (rate_change 50 1 0 ticker_mid_cycle).mstick = 0 ∧
    (ticks 50 (rate_change 50 1 0 ticker_mid_cycle)).toggles =
      (rate_change 50 1 0 ticker_mid_cycle).toggles + 1 ∧
    (ticks (50 - ticker_mid_cycle.mstick) (rate_change 50 0 0 ticker_mid_cycle)).toggles =
      (rate_change 50 0 0 ticker_mid_cycle).toggles + 1 ∧
    (ticks (30 + 1) (rate_change 30 0 0 ticker_mid_cycle)).toggles =
      (rate_change 30 0 0 ticker_mid_cycle).toggles + 1 ∧
    (ticks (40 + 2) (rate_change 40 0 0 ticker_mid_cycle)).toggles =
      (rate_change 40 0 0 ticker_mid_cycle).toggles + 1 :=
  ⟨by decide, by decide, rfl,
    (C12_rate_change ticker_mid_cycle 50 1 0 (by decide) (by decide)).1,
    ((C12_rate_change ticker_mid_cycle 50 1 0 (by decide) (by decide)).2.1
      (Or.inl (by decide))).1,
    ((C12_rate_change ticker_mid_cycle 50 1 0 (by decide) (by decide)).2.1
      (Or.inl (by decide))).2.2,
    (((C12_rate_change ticker_mid_cycle 50 0 0 (by decide) (by decide)).2.2
      (by decide)).2.1 (show ticker_mid_cycle.mstick < 50 from Nat.lt_of_sub_eq_succ rfl)).2,
    (((C12_rate_change ticker_mid_cycle 30 0 0 (by decide) (by decide)).2.2
      (by decide)).2.2.1 (show 30 < ticker_mid_cycle.mstick from Nat.lt_of_sub_eq_succ rfl)).2,
    (((C12_rate_change ticker_mid_cycle 40 0 0 (by decide) (by decide)).2.2
      (by decide)).2.2.2 rfl).2⟩

end FanDemo
